import Mathlib

/-!
Shallow embedding of the forecasting pipeline of the
montpellier_bike_prediction repository, together with proofs of the
specification claims about it.

Timestamps are modelled as natural numbers: seconds since the Unix epoch,
UTC.  Pandas / datetime library calls are modelled by their documented
semantics on such timestamps:
  * `.dt.hour`     -> `hourOfDay`
  * `.dt.weekday`  -> `weekday`   (Monday = 0 .. Sunday = 6)
  * `.dt.date`     -> `dateOf`    (the calendar date, as a day number)
  * `.dt.strftime "%Y-%m-%dT%H:%M:%S"` -> `strftime_iso_no_tz`
Dataframes are modelled as lists of rows; a pandas left merge is modelled
by `leftMergeBy`, which reproduces the multiplicity semantics of
`pd.merge(..., how="left")` exactly (every left row is kept; it is
repeated once per matching right row, or once with a null payload when
there is no match).  Fallible Python code returns `Except PyError`.
-/

/-- Python exceptions that the modelled code can raise. -/
inductive PyError where
  | valueError (msg : String)
  | typeError (msg : String)
  deriving Repr, DecidableEq

/-- Seconds in one hour. -/
def secondsPerHour : Nat := 3600

/-- Seconds in one day. -/
def secondsPerDay : Nat := 86400

/-- Model of `.dt.hour` on a UTC timestamp: the hour of day, 0..23. -/
def hourOfDay (t : Nat) : Nat := t / secondsPerHour % 24

/-- Model of `.dt.minute` on a UTC timestamp. -/
def minuteOf (t : Nat) : Nat := t / 60 % 60

/-- Model of `.dt.second` on a UTC timestamp. -/
def secondOf (t : Nat) : Nat := t % 60

/-- Model of `.dt.date` on a UTC timestamp: the calendar date, represented
as the number of whole days since the Unix epoch. -/
def dateOf (t : Nat) : Nat := t / secondsPerDay

/-- Model of `.dt.weekday`: day of week with Monday = 0 .. Sunday = 6.
1970-01-01 (day number 0) was a Thursday, hence the offset 3. -/
def weekday (t : Nat) : Nat := (dateOf t + 3) % 7

/-- Decimal digit character for a digit 0..9. -/
def digitChar (d : Nat) : Char := Char.ofNat (48 + d)

/-- Fuel-driven decimal digit renderer, most significant digit first
(structural recursion on the fuel, so it reduces inside the kernel). -/
def natDigitsGo : Nat → Nat → List Char
  | 0, _ => []
  | fuel + 1, m =>
    if m < 10 then [digitChar m]
    else natDigitsGo fuel (m / 10) ++ [digitChar (m % 10)]

/-- Decimal digits of a natural number, most significant first (n + 1
units of fuel always suffice: the argument shrinks by a factor 10 each
step). -/
def natDigits (n : Nat) : List Char := natDigitsGo (n + 1) n

/-- Decimal string of a natural number. -/
def natStr (n : Nat) : String := String.mk (natDigits n)

/-- Zero-padded two-digit field, as produced by strftime codes %m %d %H %M %S. -/
def pad2 (n : Nat) : String :=
  if n < 10 then "0" ++ natStr n else natStr n

/-- Zero-padded four-digit year field, as produced by strftime code %Y. -/
def pad4 (n : Nat) : String :=
  if n < 10 then "000" ++ natStr n
  else if n < 100 then "00" ++ natStr n
  else if n < 1000 then "0" ++ natStr n
  else natStr n

/-- Civil calendar date (year, month, day) from a day number counted from
1970-01-01, for dates on or after the epoch (the only ones the pipeline
produces).  Standard days-to-civil conversion over the proleptic Gregorian
calendar. -/
def civilFromDays (z : Nat) : Nat × Nat × Nat :=
  let z' := z + 719468
  let era := z' / 146097
  let doe := z' % 146097
  let yoe := (doe - doe / 1460 + doe / 36524 - doe / 146096) / 365
  let y := yoe + era * 400
  let doy := doe - (365 * yoe + yoe / 4 - yoe / 100)
  let mp := (5 * doy + 2) / 153
  let d := doy - (153 * mp + 2) / 5 + 1
  let m := if mp < 10 then mp + 3 else mp - 9
  (if m ≤ 2 then y + 1 else y, m, d)

/-- Model of `.dt.strftime("%Y-%m-%dT%H:%M:%S")` on a UTC timestamp: an
ISO-8601 string of the UTC calendar fields, with no timezone suffix. -/
def strftime_iso_no_tz (t : Nat) : String :=
  pad4 (civilFromDays (dateOf t)).1 ++ "-" ++
    pad2 (civilFromDays (dateOf t)).2.1 ++ "-" ++
    pad2 (civilFromDays (dateOf t)).2.2 ++ "T" ++
    pad2 (hourOfDay t) ++ ":" ++ pad2 (minuteOf t) ++ ":" ++ pad2 (secondOf t)

/-- Pandas left merge of `l` with `r` on a key: every left row is kept once
per matching right row, or once with payload `none` when no right row
matches.  This is exactly the multiplicity behaviour of
`pd.merge(left, right, on=key, how="left")`. -/
def leftMergeBy {α β κ : Type} [DecidableEq κ]
    (keyL : α → κ) (keyR : β → κ) (l : List α) (r : List β) :
    List (α × Option β) :=
  l.flatMap fun a =>
    let ms := r.filter fun b => keyR b = keyL a
    if ms.isEmpty then [(a, none)]
    else ms.map fun b => (a, some b)

/-! ## Data model rows -/

/-- Weather payload of one hourly row: the four regressor columns, each
possibly null (pandas NaN). -/
structure WeatherVals where
  temperature_2m : Option Int
  relative_humidity_2m : Option Int
  precipitation : Option Int
  wind_speed_10m : Option Int
  deriving Repr, DecidableEq

/-- One row of the bike_hourly table. -/
structure BikeRow where
  counter_id : String
  timestamp_utc : Nat
  intensity : Int
  deriving Repr, DecidableEq

/-- One row of the weather_hourly or weather_forecast_hourly table. -/
structure WeatherRow where
  timestamp_utc : Nat
  vals : WeatherVals
  deriving Repr, DecidableEq

/-- One row of the holidays table; `date` is a day number. -/
structure HolidayRow where
  date : Nat
  name : String
  year : Nat
  deriving Repr, DecidableEq

/-- The tables of the Supabase store that the model pipelines read. -/
structure Db where
  bike_hourly : List BikeRow
  weather_hourly : List WeatherRow
  holidays : List HolidayRow
  weather_forecast_hourly : List WeatherRow
  deriving Repr

/-! ## db_supabase.py -/

namespace DbSupabase

/-- Network side effects that `upsert_df` can perform against the store. -/
inductive NetOp (ρ : Type) where
  | createClient
  | upsertWrite (table : String) (records : List ρ)
  deriving Repr, DecidableEq

/-- Return dictionary of `upsert_df` (the "response" field is omitted:
it is the raw client reply and carries no information the code uses). -/
structure UpsertOutcome where
  status : String
  table : String
  count : Option Nat
  deriving Repr, DecidableEq

/-- Abstract store state: the rows of each table, by table name. -/
def Store (ρ : Type) := String → List ρ

/-- Effect of a list of network operations on the store: an upsert write
appends/overwrites records in its table (modelled as append; the claims
only use whether the table changed at all). -/
def applyOps {ρ : Type} (s : Store ρ) (ops : List (NetOp ρ)) : Store ρ :=
  ops.foldl
    (fun st op =>
      match op with
      | NetOp.createClient => st
      | NetOp.upsertWrite table records =>
          fun t => if t = table then st t ++ records else st t)
    s

/-- Model of `db_supabase.upsert_df`: on an empty dataframe it returns
the "empty" dictionary immediately, creating no client and performing no
network operation; otherwise it creates a client, converts the dataframe
to records, writes them, and reports their count. -/
def upsert_df {ρ : Type} (table : String) (df : List ρ) :
    UpsertOutcome × List (NetOp ρ) :=
  if df.isEmpty then
    ({ status := "empty", table := table, count := none }, [])
  else
    ({ status := "ok", table := table, count := some df.length },
     [NetOp.createClient, NetOp.upsertWrite table df])

/-- Number of parameters of `db_supabase.truncate_table` (its signature is
`truncate_table(table: str)`). -/
def truncate_table_param_count : Nat := 1

/-- Return dictionary of a successful `truncate_table` call. -/
structure TruncOutcome where
  status : String
  table : String
  deriving Repr, DecidableEq

/-- Model of a Python positional call to `truncate_table`: binding more
positional arguments than the function has parameters raises a TypeError
before the body runs, so no client is created and no delete is issued.
With the right arity the body creates a client and deletes all rows. -/
def callTruncateTable (args : List String) :
    Except PyError (List (NetOp Unit) × TruncOutcome) :=
  if args.length ≠ truncate_table_param_count then
    Except.error (PyError.typeError
      ("truncate_table() takes " ++ toString truncate_table_param_count ++
       " positional argument but " ++ toString args.length ++ " were given"))
  else
    let table := args.headD ""
    Except.ok ([NetOp.createClient, NetOp.upsertWrite table []],
               { status := "ok", table := table })

end DbSupabase

/-! ## cli/update_weather_forecast.py -/

namespace UpdateWeatherForecast

/-- One row of the raw Open-Meteo feed as fetched by
`fetch_hourly_forecast_utc` (column `time_utc` plus the four hourly
variables). -/
structure FeedRow where
  time_utc : Nat
  vals : WeatherVals
  deriving Repr, DecidableEq

/-- One row of the merged tomorrow skeleton: an expected timestamp and the
feed payload when that hour was present in the feed (`none` = the pandas
NaN row produced by the left merge). -/
structure SkeletonRow where
  time_utc : Nat
  vals : Option WeatherVals
  deriving Repr, DecidableEq

/-- Model of `keep_tomorrow_utc_midnight_to_midnight`: builds the 24
expected hourly timestamps of tomorrow (current UTC date + 1, hours 00:00
to 23:00) and left-joins the feed onto that skeleton. -/
def keep_tomorrow_utc_midnight_to_midnight (now_utc : Nat) (df : List FeedRow) :
    List SkeletonRow :=
  (leftMergeBy (fun ts => ts) FeedRow.time_utc
      ((List.range 24).map fun h =>
        (dateOf now_utc + 1) * secondsPerDay + h * secondsPerHour)
      df).map
    fun p => { time_utc := p.1, vals := p.2.map FeedRow.vals }

/-- One output row of `prepare_for_supabase`: the timestamp serialized as
an ISO string plus the four weather columns. -/
structure ForecastOutRow where
  timestamp_utc : String
  vals : Option WeatherVals
  deriving Repr, DecidableEq

/-- Fuelled first-occurrence deduplication by key, the semantics of
pandas `drop_duplicates(subset=[k])` (structural recursion on the fuel so
that it reduces inside the kernel). -/
def dedupByKeyGo {α κ : Type} [DecidableEq κ] (key : α → κ) :
    Nat → List α → List α
  | 0, _ => []
  | _, [] => []
  | fuel + 1, a :: rest =>
    a :: dedupByKeyGo key fuel (rest.filter fun b => key b ≠ key a)

/-- First-occurrence deduplication; `l.length` units of fuel always
suffice since each step strictly shrinks the remaining list. -/
def dedupByKey {α κ : Type} [DecidableEq κ] (key : α → κ) (l : List α) :
    List α :=
  dedupByKeyGo key l.length l

/-- Model of `prepare_for_supabase`: rename `time_utc` to `timestamp_utc`,
format it as an ISO string without timezone suffix, and drop duplicate
timestamps (keeping the first). -/
def prepare_for_supabase (df : List SkeletonRow) : List ForecastOutRow :=
  dedupByKey ForecastOutRow.timestamp_utc
    (df.map fun r => { timestamp_utc := strftime_iso_no_tz r.time_utc, vals := r.vals })

end UpdateWeatherForecast

/-! ## Shared pipeline infrastructure -/

/-- Insert into a sorted list, keeping stability (pandas sort is stable). -/
def insertSorted {α : Type} (le : α → α → Bool) (a : α) : List α → List α
  | [] => [a]
  | b :: rest => if le a b then a :: b :: rest else b :: insertSorted le a rest

/-- Stable insertion sort, modelling `.order(column)` on a Supabase query
(and pandas `sort_values`). -/
def sortBy {α : Type} (le : α → α → Bool) : List α → List α
  | [] => []
  | a :: rest => insertSorted le a (sortBy le rest)

/-- The fixed counter selection list from config.py (SELECTED_COUNTERS). -/
def SELECTED_COUNTERS : List String := [
  "urn:ngsi-ld:EcoCounter:X2H22043034",
  "urn:ngsi-ld:EcoCounter:X2H22043035",
  "urn:ngsi-ld:EcoCounter:X2H22104768",
  "urn:ngsi-ld:EcoCounter:X2H22104774",
  "urn:ngsi-ld:EcoCounter:X2H22104775",
  "urn:ngsi-ld:EcoCounter:X2H22104776",
  "urn:ngsi-ld:EcoCounter:X2H22104773",
  "urn:ngsi-ld:EcoCounter:X2H20042635",
  "urn:ngsi-ld:EcoCounter:X2H22104769",
  "urn:ngsi-ld:EcoCounter:X2H22104766"]

/-- Observable per-counter events of a pipeline run (the printed warnings
and the fact that a model was trained for a counter). -/
inductive Event where
  | skippedNoHistory (cid : String)
  | skippedEmptyTraining (cid : String)
  | skippedFewRows (cid : String) (rows : Nat)
  | trained (cid : String)
  deriving Repr, DecidableEq

/-! ## cli/train_and_predict_prophet.py -/

namespace Prophet

/-- One row of the Prophet training dataframe after column selection and
`dropna` (all regressors present). -/
structure TrainRow where
  ds : Nat
  y : Int
  temperature_2m : Int
  relative_humidity_2m : Int
  precipitation : Int
  wind_speed_10m : Int
  is_holiday : Nat
  dow : Nat
  hour : Nat
  deriving Repr, DecidableEq

/-- One row of the Prophet future dataframe (no dropna is applied to it,
so weather fields stay optional). -/
structure FutureRow where
  ds : Nat
  temperature_2m : Option Int
  relative_humidity_2m : Option Int
  precipitation : Option Int
  wind_speed_10m : Option Int
  is_holiday : Nat
  dow : Nat
  hour : Nat
  deriving Repr, DecidableEq

/-- One prediction row before timestamp serialization. -/
structure PredRow where
  counter_id : String
  timestamp_utc : Nat
  yhat : Int
  yhat_lower : Int
  yhat_upper : Int
  deriving Repr, DecidableEq

/-- One prediction row as upserted (timestamp serialized to ISO string). -/
structure PredOutRow where
  counter_id : String
  timestamp_utc : String
  yhat : Int
  yhat_lower : Int
  yhat_upper : Int
  deriving Repr, DecidableEq

/-- Model of `load_bike_history`: select rows of one counter ordered by
timestamp; raise ValueError when there are none. -/
def load_bike_history (db : Db) (counter_id : String) :
    Except PyError (List BikeRow) :=
  if (sortBy (fun a b => a.timestamp_utc ≤ b.timestamp_utc)
      (db.bike_hourly.filter fun r => r.counter_id = counter_id)).isEmpty then
    Except.error (PyError.valueError ("No bike data in bike_hourly for " ++ counter_id))
  else Except.ok (sortBy (fun a b => a.timestamp_utc ≤ b.timestamp_utc)
    (db.bike_hourly.filter fun r => r.counter_id = counter_id))

/-- Model of `load_weather_history`: the whole weather_hourly table ordered
by timestamp; raise ValueError when empty. -/
def load_weather_history (db : Db) : Except PyError (List WeatherRow) :=
  if (sortBy (fun a b => a.timestamp_utc ≤ b.timestamp_utc) db.weather_hourly).isEmpty then
    Except.error (PyError.valueError "No data in weather_hourly")
  else Except.ok (sortBy (fun a b => a.timestamp_utc ≤ b.timestamp_utc) db.weather_hourly)

/-- Model of `load_holidays`: the whole holidays table; raise ValueError
when empty. -/
def load_holidays (db : Db) : Except PyError (List HolidayRow) :=
  if db.holidays.isEmpty then Except.error (PyError.valueError "No data in holidays")
  else Except.ok db.holidays

/-- Model of `load_weather_forecast_for_tomorrow`: the forecast table
ordered by timestamp (ValueError when empty), restricted to rows whose
UTC date is the current UTC date + 1 (ValueError when that filter leaves
nothing). -/
def load_weather_forecast_for_tomorrow (db : Db) (now_utc : Nat) :
    Except PyError (List WeatherRow) :=
  if (sortBy (fun a b => a.timestamp_utc ≤ b.timestamp_utc)
      db.weather_forecast_hourly).isEmpty then
    Except.error (PyError.valueError "No data in weather_forecast_hourly")
  else
    if ((sortBy (fun a b => a.timestamp_utc ≤ b.timestamp_utc)
          db.weather_forecast_hourly).filter
        (fun r => dateOf r.timestamp_utc = dateOf now_utc + 1)).isEmpty then
      Except.error (PyError.valueError
        "No forecast rows for tomorrow in weather_forecast_hourly")
    else Except.ok ((sortBy (fun a b => a.timestamp_utc ≤ b.timestamp_utc)
        db.weather_forecast_hourly).filter
      (fun r => dateOf r.timestamp_utc = dateOf now_utc + 1))

/-- The joined table of `build_training_dataframe` before column selection
and `dropna`: bike rows left-merged with weather on `timestamp_utc`, then
left-merged with holidays on the calendar date of the timestamp. -/
def joined_training_rows (df_bike : List BikeRow) (df_weather : List WeatherRow)
    (df_holidays : List HolidayRow) :
    List ((BikeRow × Option WeatherRow) × Option HolidayRow) :=
  leftMergeBy (fun p => dateOf p.1.timestamp_utc) HolidayRow.date
    (leftMergeBy BikeRow.timestamp_utc WeatherRow.timestamp_utc df_bike df_weather)
    df_holidays

/-- Column selection and `dropna` of `build_training_dataframe` for one
joined row: the row survives exactly when all four weather regressors are
present; is_holiday is the notna flag of the merged holiday name, dow and
hour come from the timestamp. -/
def toTrainRow (row : (BikeRow × Option WeatherRow) × Option HolidayRow) :
    Option TrainRow :=
  match row.1.2 with
  | none => none
  | some w =>
    match w.vals.temperature_2m, w.vals.relative_humidity_2m,
          w.vals.precipitation, w.vals.wind_speed_10m with
    | some temp, some hum, some prec, some wind =>
        some { ds := row.1.1.timestamp_utc
               y := row.1.1.intensity
               temperature_2m := temp
               relative_humidity_2m := hum
               precipitation := prec
               wind_speed_10m := wind
               is_holiday := if row.2.isSome then 1 else 0
               dow := weekday row.1.1.timestamp_utc
               hour := hourOfDay row.1.1.timestamp_utc }
    | _, _, _, _ => none

/-- Model of `build_training_dataframe`: the two left merges followed by
column selection and `dropna`. -/
def build_training_dataframe (_counter_id : String) (df_bike : List BikeRow)
    (df_weather : List WeatherRow) (df_holidays : List HolidayRow) :
    List TrainRow :=
  (joined_training_rows df_bike df_weather df_holidays).filterMap toTrainRow

/-- Model of `build_future_dataframe`: forecast rows left-merged with
holidays on date, with the same derived features as at training time
(no dropna). -/
def build_future_dataframe (df_forecast_weather : List WeatherRow)
    (df_holidays : List HolidayRow) : List FutureRow :=
  (leftMergeBy (fun r => dateOf r.timestamp_utc) HolidayRow.date
      df_forecast_weather df_holidays).map fun p =>
    { ds := p.1.timestamp_utc
      temperature_2m := p.1.vals.temperature_2m
      relative_humidity_2m := p.1.vals.relative_humidity_2m
      precipitation := p.1.vals.precipitation
      wind_speed_10m := p.1.vals.wind_speed_10m
      is_holiday := if p.2.isSome then 1 else 0
      dow := weekday p.1.timestamp_utc
      hour := hourOfDay p.1.timestamp_utc }

/-- The opaque Prophet library (fit on a training table, predict one future
row, returning yhat with lower/upper bounds); passed in as a parameter
because the library internals are outside the program. -/
def ModelFn : Type := List TrainRow → FutureRow → Int × Int × Int

/-- Body of the per-counter loop of `predict_for_all_counters`: load the
counter's history (a ValueError is caught and the counter skipped), build
the training table (an empty one skips the counter), otherwise train and
predict tomorrow's 24 rows. -/
def counterStep (θ : ModelFn) (db : Db) (df_weather : List WeatherRow)
    (df_holidays : List HolidayRow) (df_forecast_weather : List WeatherRow)
    (counter_id : String) : List Event × Option (List PredRow) :=
  match load_bike_history db counter_id with
  | Except.error _ => ([Event.skippedNoHistory counter_id], none)
  | Except.ok df_bike =>
    if (build_training_dataframe counter_id df_bike df_weather df_holidays).isEmpty then
      ([Event.skippedEmptyTraining counter_id], none)
    else
      ([Event.trained counter_id],
       some ((build_future_dataframe df_forecast_weather df_holidays).map fun f =>
         ({ counter_id := counter_id, timestamp_utc := f.ds,
            yhat := (θ (build_training_dataframe counter_id df_bike df_weather df_holidays) f).1,
            yhat_lower := (θ (build_training_dataframe counter_id df_bike df_weather df_holidays) f).2.1,
            yhat_upper := (θ (build_training_dataframe counter_id df_bike df_weather df_holidays) f).2.2 } : PredRow)))

/-- The body of `predict_for_all_counters` after the shared loads: run the
per-counter loop, concatenate the predictions of all processed counters,
serialize the timestamps and upsert the batch (when no counter produced
predictions the function returns early with no upsert). -/
def runCounterLoop (θ : ModelFn) (db : Db) (df_weather : List WeatherRow)
    (df_holidays : List HolidayRow) (df_forecast_weather : List WeatherRow)
    (counters : List String) :
    List Event ×
      Except PyError (Option (DbSupabase.UpsertOutcome × List (DbSupabase.NetOp PredOutRow))) :=
  if (((counters.map (counterStep θ db df_weather df_holidays df_forecast_weather)).filterMap
        Prod.snd).isEmpty) then
    ((counters.map (counterStep θ db df_weather df_holidays df_forecast_weather)).flatMap
       Prod.fst,
     Except.ok none)
  else
    ((counters.map (counterStep θ db df_weather df_holidays df_forecast_weather)).flatMap
       Prod.fst,
     Except.ok (some (DbSupabase.upsert_df "bike_predictions_hourly_prophet"
       ((((counters.map (counterStep θ db df_weather df_holidays df_forecast_weather)).filterMap
            Prod.snd).flatten).map fun p =>
         ({ counter_id := p.counter_id,
            timestamp_utc := strftime_iso_no_tz p.timestamp_utc,
            yhat := p.yhat, yhat_lower := p.yhat_lower,
            yhat_upper := p.yhat_upper } : PredOutRow)))))

/-- Model of `predict_for_all_counters`, parameterized by the counter list
it loops over (the source loops over the module-level SELECTED_COUNTERS):
load the three shared tables (any failure aborts the run before the loop),
then the counter loop and batch upsert of `runCounterLoop`.  Returns the
event trace together with either the raised error or the upsert outcome. -/
def predict_for_counters (θ : ModelFn) (db : Db) (now_utc : Nat)
    (counters : List String) :
    List Event ×
      Except PyError (Option (DbSupabase.UpsertOutcome × List (DbSupabase.NetOp PredOutRow))) :=
  match load_weather_history db with
  | Except.error e => ([], Except.error e)
  | Except.ok df_weather =>
  match load_holidays db with
  | Except.error e => ([], Except.error e)
  | Except.ok df_holidays =>
  match load_weather_forecast_for_tomorrow db now_utc with
  | Except.error e => ([], Except.error e)
  | Except.ok df_forecast_weather =>
    runCounterLoop θ db df_weather df_holidays df_forecast_weather counters

/-- Model of `predict_for_all_counters` itself: the loop runs over the
fixed SELECTED_COUNTERS list. -/
def predict_for_all_counters (θ : ModelFn) (db : Db) (now_utc : Nat) :=
  predict_for_counters θ db now_utc SELECTED_COUNTERS

end Prophet

/-! ## cli/train_and_predict_xgboost.py -/

namespace Xgb

/-- One row of the XGBoost training dataset after `dropna` on intensity
and the feature columns (all features present). -/
structure TrainRow where
  counter_id : String
  timestamp_utc : Nat
  intensity : Int
  temperature_2m : Int
  relative_humidity_2m : Int
  precipitation : Int
  wind_speed_10m : Int
  is_holiday : Nat
  hour : Nat
  dow : Nat
  deriving Repr, DecidableEq

/-- One row of the XGBoost future feature dataframe (no dropna, weather
fields stay optional). -/
structure FutureRow where
  timestamp_utc : Nat
  temperature_2m : Option Int
  relative_humidity_2m : Option Int
  precipitation : Option Int
  wind_speed_10m : Option Int
  is_holiday : Nat
  hour : Nat
  dow : Nat
  deriving Repr, DecidableEq

/-- One prediction row before timestamp serialization. -/
structure PredRow where
  counter_id : String
  timestamp_utc : Nat
  yhat : Int
  deriving Repr, DecidableEq

/-- One prediction row as upserted (timestamp serialized to ISO string). -/
structure PredOutRow where
  counter_id : String
  timestamp_utc : String
  yhat : Int
  deriving Repr, DecidableEq

/-- Model of the XGBoost `load_bike_history` (same query as the Prophet
one; the float cast of intensity does not change the model). -/
def load_bike_history (db : Db) (counter_id : String) :
    Except PyError (List BikeRow) :=
  Prophet.load_bike_history db counter_id

/-- Model of the XGBoost `load_weather_history` (same query as the Prophet
one; the safety float casts do not change the model). -/
def load_weather_history (db : Db) : Except PyError (List WeatherRow) :=
  Prophet.load_weather_history db

/-- Model of the XGBoost `load_holidays` (same query as the Prophet one). -/
def load_holidays (db : Db) : Except PyError (List HolidayRow) :=
  Prophet.load_holidays db

/-- Model of the XGBoost `load_weather_forecast_for_tomorrow`: identical
filter to the Prophet one, followed by `sort_values` + `reset_index`
(already sorted, so the extra sort is the identity up to order and the
rows are the same). -/
def load_weather_forecast_for_tomorrow (db : Db) (now_utc : Nat) :
    Except PyError (List WeatherRow) :=
  (Prophet.load_weather_forecast_for_tomorrow db now_utc).map
    (sortBy fun a b => a.timestamp_utc ≤ b.timestamp_utc)

/-- The joined table of `build_training_dataset` before `dropna`: same two
left merges as the Prophet variant. -/
def joined_training_rows (df_bike : List BikeRow) (df_weather : List WeatherRow)
    (df_holidays : List HolidayRow) :
    List ((BikeRow × Option WeatherRow) × Option HolidayRow) :=
  Prophet.joined_training_rows df_bike df_weather df_holidays

/-- Feature derivation and `dropna(subset=["intensity"] + FEATURE_COLS)`
for one joined row: the row survives exactly when all four weather
features are present. -/
def toTrainRow (row : (BikeRow × Option WeatherRow) × Option HolidayRow) :
    Option TrainRow :=
  match row.1.2 with
  | none => none
  | some w =>
    match w.vals.temperature_2m, w.vals.relative_humidity_2m,
          w.vals.precipitation, w.vals.wind_speed_10m with
    | some temp, some hum, some prec, some wind =>
        some { counter_id := row.1.1.counter_id
               timestamp_utc := row.1.1.timestamp_utc
               intensity := row.1.1.intensity
               temperature_2m := temp
               relative_humidity_2m := hum
               precipitation := prec
               wind_speed_10m := wind
               is_holiday := if row.2.isSome then 1 else 0
               hour := hourOfDay row.1.1.timestamp_utc
               dow := weekday row.1.1.timestamp_utc }
    | _, _, _, _ => none

/-- Model of `build_training_dataset`: the two left merges followed by
feature derivation and `dropna`. -/
def build_training_dataset (_counter_id : String) (df_bike : List BikeRow)
    (df_weather : List WeatherRow) (df_holidays : List HolidayRow) :
    List TrainRow :=
  (joined_training_rows df_bike df_weather df_holidays).filterMap toTrainRow

/-- Model of `build_future_features`: forecast rows left-merged with
holidays on date, with the training-time feature derivation, sorted by
timestamp. -/
def build_future_features (df_forecast_weather : List WeatherRow)
    (df_holidays : List HolidayRow) : List FutureRow :=
  sortBy (fun a b => a.timestamp_utc ≤ b.timestamp_utc)
    ((leftMergeBy (fun r => dateOf r.timestamp_utc) HolidayRow.date
        df_forecast_weather df_holidays).map fun p =>
      { timestamp_utc := p.1.timestamp_utc
        temperature_2m := p.1.vals.temperature_2m
        relative_humidity_2m := p.1.vals.relative_humidity_2m
        precipitation := p.1.vals.precipitation
        wind_speed_10m := p.1.vals.wind_speed_10m
        is_holiday := if p.2.isSome then 1 else 0
        hour := hourOfDay p.1.timestamp_utc
        dow := weekday p.1.timestamp_utc })

/-- The opaque XGBoost library (fit on a training table, predict one
future row); passed in as a parameter because the library internals are
outside the program. -/
def ModelFn : Type := List TrainRow → FutureRow → Int

/-- Body of the per-counter loop of `predict_for_all_counters_xgb`: a
caught ValueError skips the counter; a training table with fewer than 100
rows skips the counter with a warning; otherwise train and predict. -/
def counterStep (θ : ModelFn) (db : Db) (df_weather : List WeatherRow)
    (df_holidays : List HolidayRow) (df_forecast_weather : List WeatherRow)
    (counter_id : String) : List Event × Option (List PredRow) :=
  match load_bike_history db counter_id with
  | Except.error _ => ([Event.skippedNoHistory counter_id], none)
  | Except.ok df_bike =>
    if (build_training_dataset counter_id df_bike df_weather df_holidays).length < 100 then
      ([Event.skippedFewRows counter_id
          (build_training_dataset counter_id df_bike df_weather df_holidays).length], none)
    else
      ([Event.trained counter_id],
       some ((build_future_features df_forecast_weather df_holidays).map fun f =>
         ({ counter_id := counter_id, timestamp_utc := f.timestamp_utc,
            yhat := θ (build_training_dataset counter_id df_bike df_weather df_holidays) f } : PredRow)))

/-- The body of `predict_for_all_counters_xgb` after the shared loads:
the per-counter loop, then one serialization + upsert of the concatenated
batch (no upsert when no counter produced predictions). -/
def runCounterLoop (θ : ModelFn) (db : Db) (df_weather : List WeatherRow)
    (df_holidays : List HolidayRow) (df_forecast_weather : List WeatherRow)
    (counters : List String) :
    List Event ×
      Except PyError (Option (DbSupabase.UpsertOutcome × List (DbSupabase.NetOp PredOutRow))) :=
  if (((counters.map (counterStep θ db df_weather df_holidays df_forecast_weather)).filterMap
        Prod.snd).isEmpty) then
    ((counters.map (counterStep θ db df_weather df_holidays df_forecast_weather)).flatMap
       Prod.fst,
     Except.ok none)
  else
    ((counters.map (counterStep θ db df_weather df_holidays df_forecast_weather)).flatMap
       Prod.fst,
     Except.ok (some (DbSupabase.upsert_df "bike_predictions_hourly_xgboost"
       ((((counters.map (counterStep θ db df_weather df_holidays df_forecast_weather)).filterMap
            Prod.snd).flatten).map fun p =>
         ({ counter_id := p.counter_id,
            timestamp_utc := strftime_iso_no_tz p.timestamp_utc,
            yhat := p.yhat } : PredOutRow)))))

/-- Model of `predict_for_all_counters_xgb`, parameterized by the counter
list it loops over: shared loads first (any failure aborts before the
loop), then the counter loop and batch upsert of `runCounterLoop`. -/
def predict_for_counters_xgb (θ : ModelFn) (db : Db) (now_utc : Nat)
    (counters : List String) :
    List Event ×
      Except PyError (Option (DbSupabase.UpsertOutcome × List (DbSupabase.NetOp PredOutRow))) :=
  match load_weather_history db with
  | Except.error e => ([], Except.error e)
  | Except.ok df_weather =>
  match load_holidays db with
  | Except.error e => ([], Except.error e)
  | Except.ok df_holidays =>
  match load_weather_forecast_for_tomorrow db now_utc with
  | Except.error e => ([], Except.error e)
  | Except.ok df_forecast_weather =>
    runCounterLoop θ db df_weather df_holidays df_forecast_weather counters

/-- Model of `predict_for_all_counters_xgb` itself: the loop runs over the
fixed SELECTED_COUNTERS list. -/
def predict_for_all_counters_xgb (θ : ModelFn) (db : Db) (now_utc : Nat) :=
  predict_for_counters_xgb θ db now_utc SELECTED_COUNTERS

end Xgb

/-! ## pipeline.py -/

namespace Pipeline

/-- Model of `should_refresh_holidays`: true on December 30 and 31. -/
def should_refresh_holidays (month day : Nat) : Bool :=
  month = 12 && day ≥ 30

/-- The positional argument lists of the `truncate_table` calls made by
`reload_data_to_supabase`, in source order (the holidays truncation is
conditional on the refresh rule). -/
def reload_truncate_calls (month day : Nat) : List (List String) :=
  [["bike_hourly", "timestamp_utc", "1900-01-01T00:00:00+00"],
   ["weather_hourly", "timestamp_utc", "1900-01-01T00:00:00+00"],
   ["counters", "id", ""],
   ["weather_forecast_hourly", "timestamp_utc", "1900-01-01T00:00:00+00"]] ++
  (if should_refresh_holidays month day then
     [["holidays", "date", "1900-01-01T00:00:00+00"]]
   else [])

/-- The positional argument lists of the `truncate_table` calls made by
`run_models`, in source order. -/
def run_models_truncate_calls : List (List String) :=
  [["bike_predictions_hourly_prophet", "timestamp_utc", "1900-01-01T00:00:00+00"],
   ["bike_predictions_hourly_xgboost", "timestamp_utc", "1900-01-01T00:00:00+00"]]

/-- Run a sequence of `truncate_table` calls: an uncaught exception from a
call aborts the sequence, keeping the database operations performed so
far. -/
def runTruncateCalls : List (List String) →
    List (DbSupabase.NetOp Unit) × Except PyError Unit
  | [] => ([], Except.ok ())
  | args :: rest =>
    match DbSupabase.callTruncateTable args with
    | Except.error e => ([], Except.error e)
    | Except.ok (ops, _) =>
      let r := runTruncateCalls rest
      (ops ++ r.1, r.2)

/-- Model of `reload_data_to_supabase`: the truncation calls run first; the
CSV loaders (abstracted as `loaders`, they touch the database only through
upserts) run only if the truncations completed. -/
def reload_data_to_supabase (month day : Nat)
    (loaders : List (DbSupabase.NetOp Unit) × Except PyError Unit) :
    List (DbSupabase.NetOp Unit) × Except PyError Unit :=
  match runTruncateCalls (reload_truncate_calls month day) with
  | (ops, Except.error e) => (ops, Except.error e)
  | (ops, Except.ok ()) => (ops ++ loaders.1, loaders.2)

/-- Model of `run_models`: the two prediction-table truncations run first;
the two model pipelines (abstracted as `models`) run only if the
truncations completed. -/
def run_models (models : List (DbSupabase.NetOp Unit) × Except PyError Unit) :
    List (DbSupabase.NetOp Unit) × Except PyError Unit :=
  match runTruncateCalls run_models_truncate_calls with
  | (ops, Except.error e) => (ops, Except.error e)
  | (ops, Except.ok ()) => (ops ++ models.1, models.2)

/-- Model of `pipeline.main`: ETL (no database access), then
`reload_data_to_supabase`, then `run_models`; an uncaught exception at any
step aborts the sequence. -/
def main (etl : Except PyError Unit) (month day : Nat)
    (loaders models : List (DbSupabase.NetOp Unit) × Except PyError Unit) :
    Except PyError Unit :=
  match etl with
  | Except.error e => Except.error e
  | Except.ok () =>
    match reload_data_to_supabase month day loaders with
    | (_, Except.error e) => Except.error e
    | (_, Except.ok ()) => (run_models models).2

end Pipeline

/-! ## Helper lemmas about the merge model -/

/-- Under uniqueness of the right key, filtering for one key value yields
exactly the rows that `find?` returns. -/
theorem filter_key_eq_find_toList {β κ : Type} [DecidableEq κ]
    (keyR : β → κ) (k : κ) (r : List β) (h : (r.map keyR).Nodup) :
    r.filter (fun b => keyR b = k) = (r.find? fun b => keyR b = k).toList := by
  induction r with
  | nil => simp
  | cons b rest ih =>
    simp only [List.map_cons, List.nodup_cons, List.mem_map] at h
    by_cases hb : keyR b = k
    · have hrest : rest.filter (fun b => keyR b = k) = [] := by
        refine List.filter_eq_nil_iff.mpr ?_
        intro c hc
        simp only [decide_eq_true_eq]
        intro hck
        exact h.1 ⟨c, hc, by rw [hck, hb]⟩
      simp [List.filter_cons, List.find?_cons, hb, hrest]
    · simp only [List.filter_cons, List.find?_cons, hb]
      simpa [hb] using ih h.2

/-- Under uniqueness of the right key, the pandas left merge is exactly a
map pairing each left row with the first (unique) matching right row. -/
theorem leftMergeBy_eq_map_find {α β κ : Type} [DecidableEq κ]
    (keyL : α → κ) (keyR : β → κ) (l : List α) (r : List β)
    (h : (r.map keyR).Nodup) :
    leftMergeBy keyL keyR l r =
      l.map fun a => (a, r.find? fun b => keyR b = keyL a) := by
  induction l with
  | nil => rfl
  | cons a rest ih =>
    unfold leftMergeBy at ih ⊢
    simp only [List.flatMap_cons, List.map_cons]
    rw [ih]
    have hone :
        (let ms := r.filter fun b => keyR b = keyL a
         if ms.isEmpty then [(a, (none : Option β))]
         else ms.map fun b => (a, some b)) =
          [(a, r.find? fun b => keyR b = keyL a)] := by
      rw [filter_key_eq_find_toList keyR (keyL a) r h]
      cases hf : r.find? fun b => keyR b = keyL a with
      | none => simp
      | some b => simp
    rw [hone]
    rfl

/-- Membership characterization of the pandas left merge (no uniqueness
needed): every output row carries a left row, and its payload is present
exactly when some right row matches. -/
theorem mem_leftMergeBy {α β κ : Type} [DecidableEq κ]
    (keyL : α → κ) (keyR : β → κ) (l : List α) (r : List β)
    (p : α × Option β) (hp : p ∈ leftMergeBy keyL keyR l r) :
    p.1 ∈ l ∧ (p.2.isSome = true ↔ ∃ b ∈ r, keyR b = keyL p.1) := by
  unfold leftMergeBy at hp
  obtain ⟨a, ha, hmem⟩ := List.mem_flatMap.mp hp
  by_cases he : (r.filter fun b => keyR b = keyL a).isEmpty
  · rw [if_pos he] at hmem
    simp only [List.mem_singleton] at hmem
    subst hmem
    refine ⟨ha, ?_, ?_⟩
    · intro hs
      simp at hs
    · rintro ⟨b, hb, hk⟩
      exfalso
      rw [List.isEmpty_iff] at he
      have : b ∈ r.filter fun b => keyR b = keyL a :=
        List.mem_filter.mpr ⟨hb, by simp [hk]⟩
      rw [he] at this
      exact absurd this (List.not_mem_nil b)
  · rw [if_neg he] at hmem
    obtain ⟨b, hb, hpb⟩ := List.mem_map.mp hmem
    obtain ⟨hbr, hbk⟩ := List.mem_filter.mp hb
    subst hpb
    refine ⟨ha, ?_, ?_⟩
    · intro _
      exact ⟨b, hbr, by simpa using hbk⟩
    · intro _
      rfl

/-- The deduplicated list is a sublist of the original up to filtering:
every kept row was an input row. -/
theorem mem_dedupByKeyGo {α κ : Type} [DecidableEq κ] (key : α → κ)
    (fuel : Nat) :
    ∀ (l : List α) (a : α), a ∈ UpdateWeatherForecast.dedupByKeyGo key fuel l →
      a ∈ l := by
  induction fuel with
  | zero =>
    intro l a ha
    cases l with
    | nil => exact absurd ha (List.not_mem_nil a)
    | cons b rest => exact absurd ha (List.not_mem_nil a)
  | succ fuel ih =>
    intro l a ha
    cases l with
    | nil => exact absurd ha (List.not_mem_nil a)
    | cons b rest =>
      rcases List.mem_cons.mp ha with h | h
      · simp [h]
      · exact List.mem_cons_of_mem _ (List.mem_of_mem_filter (ih _ a h))

/-- The deduplicated list only keeps input rows. -/
theorem mem_dedupByKey {α κ : Type} [DecidableEq κ] (key : α → κ)
    (l : List α) (a : α) (ha : a ∈ UpdateWeatherForecast.dedupByKey key l) :
    a ∈ l :=
  mem_dedupByKeyGo key l.length l a ha

/-! ## Claim C5 -/

/-- Claim C5: every invocation of `reload_data_to_supabase` and of
`run_models` raises a TypeError before performing any database operation,
because each calls `truncate_table` with three positional arguments while
`truncate_table` accepts exactly one parameter; consequently `main` of the
pipeline module can never complete. -/
theorem C5_pipeline_truncate_typeerror
    (month day : Nat)
    (loaders models : List (DbSupabase.NetOp Unit) × Except PyError Unit) :
    Pipeline.reload_data_to_supabase month day loaders =
      ([], Except.error (PyError.typeError
        "truncate_table() takes 1 positional argument but 3 were given")) ∧
    Pipeline.run_models models =
      ([], Except.error (PyError.typeError
        "truncate_table() takes 1 positional argument but 3 were given")) ∧
    ∀ etl : Except PyError Unit,
      Pipeline.main etl month day loaders models ≠ Except.ok () := by
  refine ⟨rfl, rfl, ?_⟩
  intro etl hok
  cases etl with
  | error e => exact Except.noConfusion hok
  | ok u =>
    cases u
    have hre : Pipeline.reload_data_to_supabase month day loaders =
        ([], Except.error (PyError.typeError
          "truncate_table() takes 1 positional argument but 3 were given")) := rfl
    rw [Pipeline.main, hre] at hok
    exact Except.noConfusion hok

/-- Witness for C5 at concrete inputs. -/
theorem C5_pipeline_truncate_typeerror_witness :
    Pipeline.main (Except.ok ()) 6 15 ([], Except.ok ()) ([], Except.ok ()) ≠
      Except.ok () :=
  (C5_pipeline_truncate_typeerror 6 15 ([], Except.ok ()) ([], Except.ok ())).2.2
    (Except.ok ())

/-! ## Claim C10 -/

/-- Claim C10: for every table name and every empty dataframe, `upsert_df`
returns the status-empty dictionary without creating a database client or
performing any network write, so the stored table is unchanged; when the
dataframe is non-empty it contacts the store and reports a count equal to
the number of records. -/
theorem C10_upsert_df_empty_guard {ρ : Type} (table : String) (df : List ρ)
    (store : DbSupabase.Store ρ) :
    (df = [] →
      DbSupabase.upsert_df table df =
        ({ status := "empty", table := table, count := none }, []) ∧
      DbSupabase.applyOps store (DbSupabase.upsert_df table df).2 = store) ∧
    (df ≠ [] →
      (DbSupabase.upsert_df table df).1 =
        { status := "ok", table := table, count := some df.length } ∧
      DbSupabase.NetOp.createClient ∈ (DbSupabase.upsert_df table df).2 ∧
      DbSupabase.NetOp.upsertWrite table df ∈ (DbSupabase.upsert_df table df).2) := by
  constructor
  · intro hdf
    subst hdf
    exact ⟨rfl, rfl⟩
  · intro hdf
    have hne : df.isEmpty = false := by
      cases df with
      | nil => exact absurd rfl hdf
      | cons a rest => rfl
    rw [DbSupabase.upsert_df, hne]
    exact ⟨rfl, by simp, by simp⟩

/-- Witness for C10 at concrete inputs: the empty dataframe leaves the
store untouched, the two-row dataframe reports count 2. -/
theorem C10_upsert_df_empty_guard_witness :
    (DbSupabase.upsert_df "bike_predictions_hourly_prophet" ([] : List Nat) =
      ({ status := "empty", table := "bike_predictions_hourly_prophet",
         count := none }, []) ∧
     DbSupabase.applyOps (fun _ => ([] : List Nat))
       (DbSupabase.upsert_df "bike_predictions_hourly_prophet" ([] : List Nat)).2 =
       (fun _ => ([] : List Nat))) ∧
    ((DbSupabase.upsert_df "weather_forecast_hourly" [7, 9]).1 =
      { status := "ok", table := "weather_forecast_hourly", count := some 2 }) :=
  ⟨(C10_upsert_df_empty_guard "bike_predictions_hourly_prophet" ([] : List Nat)
      (fun _ => ([] : List Nat))).1 rfl,
   ((C10_upsert_df_empty_guard "weather_forecast_hourly" [7, 9]
      (fun _ => ([] : List Nat))).2 (by simp)).1⟩

/-! ## Claim C6 -/

/-- Claim C6: the temporal join (left join of readings with weather on
exact timestamp_utc, then left join of holiday presence on the calendar
date) neither drops nor duplicates reading rows: before any null-dropping
the joined table carries exactly the reading rows, in order, one row each,
provided weather rows are unique per timestamp_utc and holidays are unique
per date; and both pipeline variants build the same joined table. -/
theorem C6_temporal_join_preserves_reading_rows
    (df_bike : List BikeRow) (df_weather : List WeatherRow)
    (df_holidays : List HolidayRow)
    (hw : (df_weather.map WeatherRow.timestamp_utc).Nodup)
    (hh : (df_holidays.map HolidayRow.date).Nodup) :
    (Prophet.joined_training_rows df_bike df_weather df_holidays).map
      (fun row => row.1.1) = df_bike ∧
    (Prophet.joined_training_rows df_bike df_weather df_holidays).length =
      df_bike.length ∧
    Xgb.joined_training_rows df_bike df_weather df_holidays =
      Prophet.joined_training_rows df_bike df_weather df_holidays := by
  have hinner := leftMergeBy_eq_map_find BikeRow.timestamp_utc
    WeatherRow.timestamp_utc df_bike df_weather hw
  have houter := leftMergeBy_eq_map_find
    (fun p : BikeRow × Option WeatherRow => dateOf p.1.timestamp_utc)
    HolidayRow.date
    (leftMergeBy BikeRow.timestamp_utc WeatherRow.timestamp_utc df_bike df_weather)
    df_holidays hh
  have hmap : (Prophet.joined_training_rows df_bike df_weather df_holidays).map
      (fun row => row.1.1) = df_bike := by
    unfold Prophet.joined_training_rows
    rw [houter, hinner, List.map_map, List.map_map]
    exact List.map_id'' (fun _ => rfl) df_bike
  refine ⟨hmap, ?_, rfl⟩
  have := congrArg List.length hmap
  simpa using this

/-- Witness for C6 at concrete inputs: two reading rows, a unique-keyed
weather table and a unique-dated holiday table. -/
theorem C6_temporal_join_preserves_reading_rows_witness :
    (Prophet.joined_training_rows
        [⟨"a", 3600, 5⟩, ⟨"a", 7200, 6⟩]
        [⟨3600, ⟨some 20, some 50, some 0, some 10⟩⟩]
        [⟨0, "jour", 1970⟩]).map (fun row => row.1.1) =
      [⟨"a", 3600, 5⟩, ⟨"a", 7200, 6⟩] :=
  (C6_temporal_join_preserves_reading_rows
    [⟨"a", 3600, 5⟩, ⟨"a", 7200, 6⟩]
    [⟨3600, ⟨some 20, some 50, some 0, some 10⟩⟩]
    [⟨0, "jour", 1970⟩] (by decide) (by decide)).1

/-! ## Claim C1 -/

/-- Claim C1: forecast-window selection for tomorrow always returns exactly
24 rows whatever the feed supplies: the 24 expected hourly timestamps
(tomorrow 00:00 to 23:00 UTC) are constructed directly and the feed (with
unique timestamps, as the upstream parallel-array feed is) is left-joined
onto that skeleton, so hours missing from the feed appear as rows with
null weather fields rather than being omitted. -/
theorem C1_keep_tomorrow_always_24_rows
    (now_utc : Nat) (df : List UpdateWeatherForecast.FeedRow)
    (hnodup : (df.map UpdateWeatherForecast.FeedRow.time_utc).Nodup) :
    (UpdateWeatherForecast.keep_tomorrow_utc_midnight_to_midnight now_utc df).length
      = 24 ∧
    (UpdateWeatherForecast.keep_tomorrow_utc_midnight_to_midnight now_utc df).map
        UpdateWeatherForecast.SkeletonRow.time_utc =
      (List.range 24).map
        (fun h => (dateOf now_utc + 1) * secondsPerDay + h * secondsPerHour) ∧
    ∀ row ∈ UpdateWeatherForecast.keep_tomorrow_utc_midnight_to_midnight now_utc df,
      dateOf row.time_utc = dateOf now_utc + 1 ∧
      (row.vals = none ↔ ∀ fr ∈ df, fr.time_utc ≠ row.time_utc) := by
  unfold UpdateWeatherForecast.keep_tomorrow_utc_midnight_to_midnight
  rw [leftMergeBy_eq_map_find _ _ _ _ hnodup]
  refine ⟨by simp, by simp [List.map_map, Function.comp], ?_⟩
  intro row hrow
  simp only [List.map_map, List.mem_map, Function.comp, List.mem_range] at hrow
  obtain ⟨h, hh24, hrow⟩ := hrow
  subst hrow
  constructor
  · show dateOf ((dateOf now_utc + 1) * secondsPerDay + h * secondsPerHour) =
      dateOf now_utc + 1
    unfold dateOf secondsPerDay secondsPerHour at *
    omega
  · constructor
    · intro hnone fr hfr heq
      rw [Option.map_eq_none', List.find?_eq_none] at hnone
      exact hnone fr hfr (by simp [heq])
    · intro hall
      rw [Option.map_eq_none', List.find?_eq_none]
      intro fr hfr hp
      exact hall fr hfr (by simpa using hp)

/-- Witness for C1 at a concrete input: an empty feed (0 matching rows)
still yields 24 rows, all with null weather fields. -/
theorem C1_keep_tomorrow_always_24_rows_witness :
    (UpdateWeatherForecast.keep_tomorrow_utc_midnight_to_midnight 0 []).length
      = 24 :=
  (C1_keep_tomorrow_always_24_rows 0 [] (by simp)).1

/-! ## Claim C7 -/

/-- Feature characterization of the training-time call site: every row of
the Prophet training dataframe carries hour = hour-of-day of its
timestamp, dow = weekday of its timestamp, and is_holiday = 1 exactly when
the holiday set contains the calendar date of the timestamp. -/
theorem train_row_features (cid : String) (b : List BikeRow)
    (w : List WeatherRow) (h : List HolidayRow) (row : Prophet.TrainRow)
    (hrow : row ∈ Prophet.build_training_dataframe cid b w h) :
    row.hour = hourOfDay row.ds ∧ row.dow = weekday row.ds ∧
    (row.is_holiday = 1 ↔ ∃ hr ∈ h, hr.date = dateOf row.ds) ∧
    (row.is_holiday = 0 ∨ row.is_holiday = 1) := by
  unfold Prophet.build_training_dataframe at hrow
  obtain ⟨jrow, hj, hto⟩ := List.mem_filterMap.mp hrow
  have hiff := (mem_leftMergeBy _ _ _ _ jrow hj).2
  obtain ⟨⟨brow, wopt⟩, hopt⟩ := jrow
  unfold Prophet.toTrainRow at hto
  cases wopt with
  | none => exact absurd hto (by simp)
  | some wr =>
    simp only at hto
    cases htemp : wr.vals.temperature_2m with
    | none => rw [htemp] at hto; exact absurd hto (by simp)
    | some temp =>
    cases hhum : wr.vals.relative_humidity_2m with
    | none => rw [htemp, hhum] at hto; exact absurd hto (by simp)
    | some hum =>
    cases hprec : wr.vals.precipitation with
    | none => rw [htemp, hhum, hprec] at hto; exact absurd hto (by simp)
    | some prec =>
    cases hwind : wr.vals.wind_speed_10m with
    | none => rw [htemp, hhum, hprec, hwind] at hto; exact absurd hto (by simp)
    | some wind =>
      rw [htemp, hhum, hprec, hwind] at hto
      simp only [Option.some.injEq] at hto
      subst hto
      refine ⟨rfl, rfl, ?_, ?_⟩
      · simp only at hiff
        constructor
        · intro hone
          apply hiff.mp
          by_contra hns
          rw [Option.not_isSome_iff_eq_none] at hns
          rw [hns] at hone
          simp at hone
        · intro hex
          have := hiff.mpr hex
          rw [this]
          rfl
      · by_cases hs : hopt.isSome = true
        · right; rw [hs]; rfl
        · left; simp [hs]

/-- Feature characterization of the prediction-time call site: every row
of the Prophet future dataframe carries the same derived features of its
timestamp and holiday set as the training-time site. -/
theorem future_row_features (f : List WeatherRow) (h : List HolidayRow)
    (row : Prophet.FutureRow)
    (hrow : row ∈ Prophet.build_future_dataframe f h) :
    row.hour = hourOfDay row.ds ∧ row.dow = weekday row.ds ∧
    (row.is_holiday = 1 ↔ ∃ hr ∈ h, hr.date = dateOf row.ds) ∧
    (row.is_holiday = 0 ∨ row.is_holiday = 1) := by
  unfold Prophet.build_future_dataframe at hrow
  obtain ⟨p, hp, hrow⟩ := List.mem_map.mp hrow
  have hiff := (mem_leftMergeBy _ _ _ _ p hp).2
  subst hrow
  refine ⟨rfl, rfl, ?_, ?_⟩
  · constructor
    · intro hone
      apply hiff.mp
      by_contra hns
      rw [Option.not_isSome_iff_eq_none] at hns
      rw [hns] at hone
      simp at hone
    · intro hex
      have := hiff.mpr hex
      rw [this]
      rfl
  · by_cases hs : p.2.isSome = true
    · right; rw [hs]; rfl
    · left; simp [hs]

/-- Claim C7: for every timestamp the derived features satisfy
hour = hour-of-day (0-23) and day-of-week maps Monday to 0 through Sunday
to 6 (1970-01-05, epoch day 4, was a Monday: adding k days lands on
weekday k mod 7), and the training-time and prediction-time call sites
compute identical hour, dow and holiday-flag values for any shared
timestamp and holiday set. -/
theorem C7_derived_features_consistent (cid : String) (b : List BikeRow)
    (w : List WeatherRow) (h : List HolidayRow) (f : List WeatherRow) :
    (∀ row ∈ Prophet.build_training_dataframe cid b w h,
      row.hour = hourOfDay row.ds ∧ hourOfDay row.ds < 24 ∧
      row.dow = weekday row.ds) ∧
    (∀ row ∈ Prophet.build_future_dataframe f h,
      row.hour = hourOfDay row.ds ∧ row.dow = weekday row.ds) ∧
    (∀ trow ∈ Prophet.build_training_dataframe cid b w h,
      ∀ frow ∈ Prophet.build_future_dataframe f h, trow.ds = frow.ds →
        trow.hour = frow.hour ∧ trow.dow = frow.dow ∧
        trow.is_holiday = frow.is_holiday) ∧
    (∀ k s : Nat, s < secondsPerDay →
      weekday (4 * secondsPerDay + k * secondsPerDay + s) = k % 7) := by
  refine ⟨?_, ?_, ?_, ?_⟩
  · intro row hrow
    obtain ⟨h1, h2, _, _⟩ := train_row_features cid b w h row hrow
    exact ⟨h1, Nat.mod_lt _ (by norm_num), h2⟩
  · intro row hrow
    obtain ⟨h1, h2, _, _⟩ := future_row_features f h row hrow
    exact ⟨h1, h2⟩
  · intro trow htrow frow hfrow hds
    obtain ⟨t1, t2, t3, t4⟩ := train_row_features cid b w h trow htrow
    obtain ⟨f1, f2, f3, f4⟩ := future_row_features f h frow hfrow
    refine ⟨by rw [t1, f1, hds], by rw [t2, f2, hds], ?_⟩
    rw [hds] at t3
    by_cases hex : ∃ hr ∈ h, hr.date = dateOf frow.ds
    · rw [t3.mpr hex, f3.mpr hex]
    · have ht0 : trow.is_holiday = 0 := by
        rcases t4 with h0 | h1
        · exact h0
        · exact absurd (t3.mp h1) hex
      have hf0 : frow.is_holiday = 0 := by
        rcases f4 with h0 | h1
        · exact h0
        · exact absurd (f3.mp h1) hex
      rw [ht0, hf0]
  · intro k s hs
    unfold weekday dateOf secondsPerDay at *
    omega

/-- Witness for C7 at concrete inputs: a one-row training table and a
one-row future table sharing the timestamp 0 (a holiday in the set), and
the Monday arithmetic at day 4 + 2 days, hour 1. -/
theorem C7_derived_features_consistent_witness :
    (∀ trow ∈ Prophet.build_training_dataframe "a"
        [⟨"a", 0, 5⟩] [⟨0, ⟨some 20, some 50, some 0, some 10⟩⟩]
        [⟨0, "jour", 1970⟩],
      ∀ frow ∈ Prophet.build_future_dataframe
        [⟨0, ⟨some 21, some 51, some 1, some 11⟩⟩] [⟨0, "jour", 1970⟩],
        trow.ds = frow.ds →
        trow.hour = frow.hour ∧ trow.dow = frow.dow ∧
        trow.is_holiday = frow.is_holiday) ∧
    weekday (4 * secondsPerDay + 2 * secondsPerDay + 3600) = 2 % 7 :=
  ⟨(C7_derived_features_consistent "a"
      [⟨"a", 0, 5⟩] [⟨0, ⟨some 20, some 50, some 0, some 10⟩⟩]
      [⟨0, "jour", 1970⟩] [⟨0, ⟨some 21, some 51, some 1, some 11⟩⟩]).2.2.1,
   (C7_derived_features_consistent "a"
      [⟨"a", 0, 5⟩] [⟨0, ⟨some 20, some 50, some 0, some 10⟩⟩]
      [⟨0, "jour", 1970⟩] [⟨0, ⟨some 21, some 51, some 1, some 11⟩⟩]).2.2.2
      2 3600 (by norm_num [secondsPerDay])⟩

/-! ## Ordering lemmas for the loader model -/

/-- Inserting adds exactly one element. -/
theorem length_insertSorted {α : Type} (le : α → α → Bool) (a : α) :
    ∀ l : List α, (insertSorted le a l).length = l.length + 1 := by
  intro l
  induction l with
  | nil => rfl
  | cons b rest ih =>
    unfold insertSorted
    by_cases hle : le a b
    · rw [if_pos hle]
      rfl
    · rw [if_neg hle]
      simp [ih]

/-- Sorting preserves length. -/
theorem length_sortBy {α : Type} (le : α → α → Bool) :
    ∀ l : List α, (sortBy le l).length = l.length := by
  intro l
  induction l with
  | nil => rfl
  | cons a rest ih =>
    unfold sortBy
    rw [length_insertSorted, ih]
    rfl

/-- Sorting yields the empty list only from the empty list. -/
theorem sortBy_eq_nil_iff {α : Type} (le : α → α → Bool) (l : List α) :
    sortBy le l = [] ↔ l = [] := by
  constructor
  · intro h
    have := congrArg List.length h
    rw [length_sortBy] at this
    exact List.length_eq_zero.mp this
  · intro h
    subst h
    rfl

/-- Insertion preserves membership. -/
theorem mem_insertSorted {α : Type} (le : α → α → Bool) (a x : α) :
    ∀ l : List α, x ∈ insertSorted le a l ↔ x = a ∨ x ∈ l := by
  intro l
  induction l with
  | nil => simp [insertSorted]
  | cons b rest ih =>
    unfold insertSorted
    by_cases hle : le a b
    · rw [if_pos hle]
      simp
    · rw [if_neg hle]
      simp only [List.mem_cons, ih]
      tauto

/-- Sorting preserves membership. -/
theorem mem_sortBy {α : Type} (le : α → α → Bool) (x : α) :
    ∀ l : List α, x ∈ sortBy le l ↔ x ∈ l := by
  intro l
  induction l with
  | nil => simp [sortBy]
  | cons a rest ih =>
    unfold sortBy
    rw [mem_insertSorted]
    simp [ih]

/-! ## Claim C4 -/

/-- When the forecast table holds rows but none dated tomorrow, the loader
raises the empty-forecast ValueError. -/
theorem load_forecast_no_tomorrow (db : Db) (now_utc : Nat)
    (hne : db.weather_forecast_hourly ≠ [])
    (hno : ∀ r ∈ db.weather_forecast_hourly,
      dateOf r.timestamp_utc ≠ dateOf now_utc + 1) :
    Prophet.load_weather_forecast_for_tomorrow db now_utc =
      Except.error (PyError.valueError
        "No forecast rows for tomorrow in weather_forecast_hourly") := by
  unfold Prophet.load_weather_forecast_for_tomorrow
  have hsne : (sortBy (fun a b : WeatherRow => a.timestamp_utc ≤ b.timestamp_utc)
      db.weather_forecast_hourly).isEmpty = false := by
    rw [List.isEmpty_eq_false_iff_exists_mem]
    cases hl : db.weather_forecast_hourly with
    | nil => exact absurd hl hne
    | cons a rest =>
      refine ⟨a, ?_⟩
      rw [mem_sortBy]
      simp
  rw [if_neg (by simp [hsne])]
  have hfil : (sortBy (fun a b : WeatherRow => a.timestamp_utc ≤ b.timestamp_utc)
        db.weather_forecast_hourly).filter
      (fun r => dateOf r.timestamp_utc = dateOf now_utc + 1) = [] := by
    refine List.filter_eq_nil_iff.mpr ?_
    intro r hr
    simp only [decide_eq_true_eq]
    exact hno r ((mem_sortBy _ r _).mp hr)
  rw [if_pos (by simp [hfil])]

/-- Claim C4: when the forecast feed has no rows for tomorrow (UTC), both
model pipelines raise the empty-forecast error, and they raise it among
the shared prerequisites before the counter loop, so the event trace is
empty and no counter model is trained. -/
theorem C4_empty_forecast_aborts_before_training
    (θ : Prophet.ModelFn) (θx : Xgb.ModelFn) (db : Db) (now_utc : Nat)
    (dfW : List WeatherRow) (dfH : List HolidayRow)
    (hW : Prophet.load_weather_history db = Except.ok dfW)
    (hH : Prophet.load_holidays db = Except.ok dfH)
    (hne : db.weather_forecast_hourly ≠ [])
    (hno : ∀ r ∈ db.weather_forecast_hourly,
      dateOf r.timestamp_utc ≠ dateOf now_utc + 1) :
    Prophet.predict_for_all_counters θ db now_utc =
      ([], Except.error (PyError.valueError
        "No forecast rows for tomorrow in weather_forecast_hourly")) ∧
    Xgb.predict_for_all_counters_xgb θx db now_utc =
      ([], Except.error (PyError.valueError
        "No forecast rows for tomorrow in weather_forecast_hourly")) := by
  have hF := load_forecast_no_tomorrow db now_utc hne hno
  constructor
  · unfold Prophet.predict_for_all_counters Prophet.predict_for_counters
    rw [hW, hH, hF]
  · unfold Xgb.predict_for_all_counters_xgb Xgb.predict_for_counters_xgb
      Xgb.load_weather_history Xgb.load_holidays
      Xgb.load_weather_forecast_for_tomorrow
    rw [hW, hH, hF]
    rfl

/-- Witness for C4 at concrete inputs: a forecast table holding only one
stale row (today, not tomorrow). -/
theorem C4_empty_forecast_aborts_before_training_witness :
    Prophet.predict_for_all_counters (fun _ _ => (0, 0, 0))
        { bike_hourly := [⟨"a", 0, 1⟩],
          weather_hourly := [⟨0, ⟨some 20, some 50, some 0, some 10⟩⟩],
          holidays := [⟨0, "jour", 1970⟩],
          weather_forecast_hourly := [⟨7200, ⟨some 21, some 51, some 1, some 11⟩⟩] }
        0 =
      ([], Except.error (PyError.valueError
        "No forecast rows for tomorrow in weather_forecast_hourly")) :=
  (C4_empty_forecast_aborts_before_training (fun _ _ => (0, 0, 0)) (fun _ _ => 0)
    { bike_hourly := [⟨"a", 0, 1⟩],
      weather_hourly := [⟨0, ⟨some 20, some 50, some 0, some 10⟩⟩],
      holidays := [⟨0, "jour", 1970⟩],
      weather_forecast_hourly := [⟨7200, ⟨some 21, some 51, some 1, some 11⟩⟩] }
    0
    [⟨0, ⟨some 20, some 50, some 0, some 10⟩⟩] [⟨0, "jour", 1970⟩]
    rfl rfl (by decide) (by decide)).1

/-! ## Claim C2 -/

/-- The event trace of the Prophet counter loop is the concatenation of
the per-counter step events. -/
theorem prophet_runCounterLoop_fst (θ : Prophet.ModelFn) (db : Db)
    (dfW : List WeatherRow) (dfH : List HolidayRow) (dfF : List WeatherRow)
    (counters : List String) :
    (Prophet.runCounterLoop θ db dfW dfH dfF counters).1 =
      (counters.map (Prophet.counterStep θ db dfW dfH dfF)).flatMap Prod.fst := by
  unfold Prophet.runCounterLoop
  split <;> rfl

/-- The Prophet counter loop itself never raises: whatever the per-counter
outcomes, its result is an ok value. -/
theorem prophet_runCounterLoop_snd_ok (θ : Prophet.ModelFn) (db : Db)
    (dfW : List WeatherRow) (dfH : List HolidayRow) (dfF : List WeatherRow)
    (counters : List String) :
    ∃ v, (Prophet.runCounterLoop θ db dfW dfH dfF counters).2 = Except.ok v := by
  unfold Prophet.runCounterLoop
  split
  · exact ⟨none, rfl⟩
  · exact ⟨_, rfl⟩

/-- Computation rule for the Prophet loop body: a counter whose history
fails to load is skipped with a no-history warning. -/
theorem prophet_counterStep_noHistory (θ : Prophet.ModelFn) (db : Db)
    (dfW : List WeatherRow) (dfH : List HolidayRow) (dfF : List WeatherRow)
    (c : String) (e : PyError)
    (hb : Prophet.load_bike_history db c = Except.error e) :
    Prophet.counterStep θ db dfW dfH dfF c = ([Event.skippedNoHistory c], none) := by
  unfold Prophet.counterStep
  rw [hb]

/-- Computation rule for the Prophet loop body: a counter with an empty
training table is skipped with an empty-training warning. -/
theorem prophet_counterStep_emptyTrain (θ : Prophet.ModelFn) (db : Db)
    (dfW : List WeatherRow) (dfH : List HolidayRow) (dfF : List WeatherRow)
    (c : String) (df_bike : List BikeRow)
    (hb : Prophet.load_bike_history db c = Except.ok df_bike)
    (he : (Prophet.build_training_dataframe c df_bike dfW dfH).isEmpty = true) :
    Prophet.counterStep θ db dfW dfH dfF c =
      ([Event.skippedEmptyTraining c], none) := by
  unfold Prophet.counterStep
  rw [hb]
  exact if_pos he

/-- A trained event for a counter arises in the Prophet loop body only
when that counter's history loaded and its training table is non-empty. -/
theorem prophet_step_trained (θ : Prophet.ModelFn) (db : Db)
    (dfW : List WeatherRow) (dfH : List HolidayRow) (dfF : List WeatherRow)
    (c x : String)
    (hx : Event.trained x ∈ (Prophet.counterStep θ db dfW dfH dfF c).1) :
    x = c ∧ ∃ df_bike, Prophet.load_bike_history db c = Except.ok df_bike ∧
      Prophet.build_training_dataframe c df_bike dfW dfH ≠ [] := by
  cases hb : Prophet.load_bike_history db c with
  | error e =>
    rw [prophet_counterStep_noHistory θ db dfW dfH dfF c e hb] at hx
    simp only [List.mem_singleton] at hx
    exact absurd hx (by simp)
  | ok df_bike =>
    by_cases hemp : (Prophet.build_training_dataframe c df_bike dfW dfH).isEmpty
    · rw [prophet_counterStep_emptyTrain θ db dfW dfH dfF c df_bike hb hemp] at hx
      simp only [List.mem_singleton] at hx
      exact absurd hx (by simp)
    · have hstep : Prophet.counterStep θ db dfW dfH dfF c =
          ([Event.trained c],
           some ((Prophet.build_future_dataframe dfF dfH).map fun f =>
             ({ counter_id := c, timestamp_utc := f.ds,
                yhat := (θ (Prophet.build_training_dataframe c df_bike dfW dfH) f).1,
                yhat_lower := (θ (Prophet.build_training_dataframe c df_bike dfW dfH) f).2.1,
                yhat_upper := (θ (Prophet.build_training_dataframe c df_bike dfW dfH) f).2.2 }
               : Prophet.PredRow))) := by
        unfold Prophet.counterStep
        rw [hb]
        exact if_neg hemp
      rw [hstep] at hx
      simp only [List.mem_singleton, Event.trained.injEq] at hx
      subst hx
      refine ⟨rfl, df_bike, rfl, ?_⟩
      intro hnil
      rw [hnil] at hemp
      exact hemp rfl

/-- Amended claim C2: when a counter's training table is empty (or its
history is missing), the Prophet pipeline skips that counter with a logged
warning, never trains it, and the run continues to a normal (non-error)
result — it does not fail hard. -/
theorem C2_amended_empty_training_skips
    (θ : Prophet.ModelFn) (db : Db) (now_utc : Nat) (counters : List String)
    (cid : String) (dfW : List WeatherRow) (dfH : List HolidayRow)
    (dfF : List WeatherRow)
    (hW : Prophet.load_weather_history db = Except.ok dfW)
    (hH : Prophet.load_holidays db = Except.ok dfH)
    (hF : Prophet.load_weather_forecast_for_tomorrow db now_utc = Except.ok dfF)
    (hmem : cid ∈ counters)
    (hskip : ∀ df_bike, Prophet.load_bike_history db cid = Except.ok df_bike →
      Prophet.build_training_dataframe cid df_bike dfW dfH = []) :
    (∃ v, (Prophet.predict_for_counters θ db now_utc counters).2 = Except.ok v) ∧
    (Event.skippedNoHistory cid ∈ (Prophet.predict_for_counters θ db now_utc counters).1 ∨
     Event.skippedEmptyTraining cid ∈ (Prophet.predict_for_counters θ db now_utc counters).1) ∧
    Event.trained cid ∉ (Prophet.predict_for_counters θ db now_utc counters).1 := by
  have hloop : Prophet.predict_for_counters θ db now_utc counters =
      Prophet.runCounterLoop θ db dfW dfH dfF counters := by
    unfold Prophet.predict_for_counters
    rw [hW, hH, hF]
  rw [hloop, prophet_runCounterLoop_fst]
  refine ⟨prophet_runCounterLoop_snd_ok θ db dfW dfH dfF counters, ?_, ?_⟩
  · cases hb : Prophet.load_bike_history db cid with
    | error e =>
      left
      apply List.mem_flatMap.mpr
      refine ⟨Prophet.counterStep θ db dfW dfH dfF cid,
        List.mem_map_of_mem _ hmem, ?_⟩
      unfold Prophet.counterStep
      rw [hb]
      simp
    | ok df_bike =>
      right
      apply List.mem_flatMap.mpr
      refine ⟨Prophet.counterStep θ db dfW dfH dfF cid,
        List.mem_map_of_mem _ hmem, ?_⟩
      rw [prophet_counterStep_emptyTrain θ db dfW dfH dfF cid df_bike hb
        (by rw [hskip df_bike hb]; rfl)]
      simp
  · intro htr
    obtain ⟨pair, hpair, he⟩ := List.mem_flatMap.mp htr
    obtain ⟨c, _, hcp⟩ := List.mem_map.mp hpair
    subst hcp
    obtain ⟨hxc, df_bike, hb, hne⟩ := prophet_step_trained θ db dfW dfH dfF c cid he
    subst hxc
    exact hne (hskip df_bike hb)

/-- Counterexample to claim C2 as stated: a concrete store in which the
selected counter has readings but none matching the weather table, so its
joined/filtered training table is empty — the Prophet pipeline does not
raise anything for it (result is ok), it logs an empty-training skip; and
with zero historical readings it likewise skips rather than raising. -/
theorem C2_counterexample_empty_training_is_skipped_not_raised :
    Prophet.build_training_dataframe "urn:ngsi-ld:EcoCounter:X2H22043034"
        [⟨"urn:ngsi-ld:EcoCounter:X2H22043034", 180000, 3⟩]
        [⟨0, ⟨some 20, some 50, some 0, some 10⟩⟩]
        [⟨0, "jour", 1970⟩] = [] ∧
    (Prophet.predict_for_all_counters (fun _ _ => (0, 0, 0))
        { bike_hourly := [⟨"urn:ngsi-ld:EcoCounter:X2H22043034", 180000, 3⟩],
          weather_hourly := [⟨0, ⟨some 20, some 50, some 0, some 10⟩⟩],
          holidays := [⟨0, "jour", 1970⟩],
          weather_forecast_hourly := [⟨86400, ⟨some 21, some 51, some 1, some 11⟩⟩] }
        0).2 = Except.ok none ∧
    Event.skippedEmptyTraining "urn:ngsi-ld:EcoCounter:X2H22043034" ∈
      (Prophet.predict_for_all_counters (fun _ _ => (0, 0, 0))
        { bike_hourly := [⟨"urn:ngsi-ld:EcoCounter:X2H22043034", 180000, 3⟩],
          weather_hourly := [⟨0, ⟨some 20, some 50, some 0, some 10⟩⟩],
          holidays := [⟨0, "jour", 1970⟩],
          weather_forecast_hourly := [⟨86400, ⟨some 21, some 51, some 1, some 11⟩⟩] }
        0).1 ∧
    (Prophet.predict_for_all_counters (fun _ _ => (0, 0, 0))
        { bike_hourly := [],
          weather_hourly := [⟨0, ⟨some 20, some 50, some 0, some 10⟩⟩],
          holidays := [⟨0, "jour", 1970⟩],
          weather_forecast_hourly := [⟨86400, ⟨some 21, some 51, some 1, some 11⟩⟩] }
        0).2 = Except.ok none := by
  refine ⟨by decide, by rfl, by decide, by rfl⟩

/-! ## Claim C3 -/

/-- The event trace of the XGBoost counter loop is the concatenation of
the per-counter step events. -/
theorem xgb_runCounterLoop_fst (θ : Xgb.ModelFn) (db : Db)
    (dfW : List WeatherRow) (dfH : List HolidayRow) (dfF : List WeatherRow)
    (counters : List String) :
    (Xgb.runCounterLoop θ db dfW dfH dfF counters).1 =
      (counters.map (Xgb.counterStep θ db dfW dfH dfF)).flatMap Prod.fst := by
  unfold Xgb.runCounterLoop
  split <;> rfl

/-- The XGBoost counter loop never raises. -/
theorem xgb_runCounterLoop_snd_ok (θ : Xgb.ModelFn) (db : Db)
    (dfW : List WeatherRow) (dfH : List HolidayRow) (dfF : List WeatherRow)
    (counters : List String) :
    ∃ v, (Xgb.runCounterLoop θ db dfW dfH dfF counters).2 = Except.ok v := by
  unfold Xgb.runCounterLoop
  split
  · exact ⟨none, rfl⟩
  · exact ⟨_, rfl⟩

/-- Computation rule for the XGBoost loop body: missing history skips. -/
theorem xgb_counterStep_noHistory (θ : Xgb.ModelFn) (db : Db)
    (dfW : List WeatherRow) (dfH : List HolidayRow) (dfF : List WeatherRow)
    (c : String) (e : PyError)
    (hb : Xgb.load_bike_history db c = Except.error e) :
    Xgb.counterStep θ db dfW dfH dfF c = ([Event.skippedNoHistory c], none) := by
  unfold Xgb.counterStep
  rw [hb]

/-- Computation rule for the XGBoost loop body: a training table below the
100-row threshold skips the counter with a few-rows warning recording the
row count. -/
theorem xgb_counterStep_few (θ : Xgb.ModelFn) (db : Db)
    (dfW : List WeatherRow) (dfH : List HolidayRow) (dfF : List WeatherRow)
    (c : String) (df_bike : List BikeRow)
    (hb : Xgb.load_bike_history db c = Except.ok df_bike)
    (hlt : (Xgb.build_training_dataset c df_bike dfW dfH).length < 100) :
    Xgb.counterStep θ db dfW dfH dfF c =
      ([Event.skippedFewRows c (Xgb.build_training_dataset c df_bike dfW dfH).length],
       none) := by
  unfold Xgb.counterStep
  rw [hb]
  exact if_pos hlt

/-- Computation rule for the XGBoost loop body: a training table at or
above the 100-row threshold trains and predicts. -/
theorem xgb_counterStep_trained (θ : Xgb.ModelFn) (db : Db)
    (dfW : List WeatherRow) (dfH : List HolidayRow) (dfF : List WeatherRow)
    (c : String) (df_bike : List BikeRow)
    (hb : Xgb.load_bike_history db c = Except.ok df_bike)
    (hge : ¬ (Xgb.build_training_dataset c df_bike dfW dfH).length < 100) :
    Xgb.counterStep θ db dfW dfH dfF c =
      ([Event.trained c],
       some ((Xgb.build_future_features dfF dfH).map fun f =>
         ({ counter_id := c, timestamp_utc := f.timestamp_utc,
            yhat := θ (Xgb.build_training_dataset c df_bike dfW dfH) f } : Xgb.PredRow))) := by
  unfold Xgb.counterStep
  rw [hb]
  exact if_neg hge

/-- A trained event arises in the XGBoost loop body only for a counter
whose history loaded and whose training table reached 100 rows. -/
theorem xgb_step_trained (θ : Xgb.ModelFn) (db : Db)
    (dfW : List WeatherRow) (dfH : List HolidayRow) (dfF : List WeatherRow)
    (c x : String)
    (hx : Event.trained x ∈ (Xgb.counterStep θ db dfW dfH dfF c).1) :
    x = c ∧ ∃ df_bike, Xgb.load_bike_history db c = Except.ok df_bike ∧
      100 ≤ (Xgb.build_training_dataset c df_bike dfW dfH).length := by
  cases hb : Xgb.load_bike_history db c with
  | error e =>
    rw [xgb_counterStep_noHistory θ db dfW dfH dfF c e hb] at hx
    simp only [List.mem_singleton] at hx
    exact absurd hx (by simp)
  | ok df_bike =>
    by_cases hlt : (Xgb.build_training_dataset c df_bike dfW dfH).length < 100
    · rw [xgb_counterStep_few θ db dfW dfH dfF c df_bike hb hlt] at hx
      simp only [List.mem_singleton] at hx
      exact absurd hx (by simp)
    · rw [xgb_counterStep_trained θ db dfW dfH dfF c df_bike hb hlt] at hx
      simp only [List.mem_singleton, Event.trained.injEq] at hx
      subst hx
      exact ⟨rfl, df_bike, rfl, by omega⟩

/-- Claim C3: in the XGBoost pipeline, a counter whose joined/filtered
training table has fewer than 100 rows is skipped with a logged warning
(no exception, the run continues and ends ok), while a table with at
least 100 rows is trained; the threshold is strict at 100, so exactly 100
rows trains and 99 skips (see the witness). -/
theorem C3_xgb_minimum_rows_threshold
    (θ : Xgb.ModelFn) (db : Db) (now_utc : Nat) (counters : List String)
    (cid : String) (dfW : List WeatherRow) (dfH : List HolidayRow)
    (dfF : List WeatherRow) (df_bike : List BikeRow)
    (hW : Xgb.load_weather_history db = Except.ok dfW)
    (hH : Xgb.load_holidays db = Except.ok dfH)
    (hF : Xgb.load_weather_forecast_for_tomorrow db now_utc = Except.ok dfF)
    (hB : Xgb.load_bike_history db cid = Except.ok df_bike)
    (hmem : cid ∈ counters) :
    ((Xgb.build_training_dataset cid df_bike dfW dfH).length < 100 →
      Event.skippedFewRows cid (Xgb.build_training_dataset cid df_bike dfW dfH).length ∈
        (Xgb.predict_for_counters_xgb θ db now_utc counters).1 ∧
      Event.trained cid ∉ (Xgb.predict_for_counters_xgb θ db now_utc counters).1 ∧
      ∃ v, (Xgb.predict_for_counters_xgb θ db now_utc counters).2 = Except.ok v) ∧
    (100 ≤ (Xgb.build_training_dataset cid df_bike dfW dfH).length →
      Event.trained cid ∈ (Xgb.predict_for_counters_xgb θ db now_utc counters).1 ∧
      ∃ v, (Xgb.predict_for_counters_xgb θ db now_utc counters).2 = Except.ok v) := by
  have hloop : Xgb.predict_for_counters_xgb θ db now_utc counters =
      Xgb.runCounterLoop θ db dfW dfH dfF counters := by
    unfold Xgb.predict_for_counters_xgb
    unfold Xgb.load_weather_history at hW ⊢
    unfold Xgb.load_holidays at hH ⊢
    rw [hW, hH, hF]
  rw [hloop, xgb_runCounterLoop_fst]
  constructor
  · intro hlt
    refine ⟨?_, ?_, xgb_runCounterLoop_snd_ok θ db dfW dfH dfF counters⟩
    · apply List.mem_flatMap.mpr
      refine ⟨Xgb.counterStep θ db dfW dfH dfF cid,
        List.mem_map_of_mem _ hmem, ?_⟩
      rw [xgb_counterStep_few θ db dfW dfH dfF cid df_bike hB hlt]
      simp
    · intro htr
      obtain ⟨pair, hpair, he⟩ := List.mem_flatMap.mp htr
      obtain ⟨c, _, hcp⟩ := List.mem_map.mp hpair
      subst hcp
      obtain ⟨hxc, df_bike2, hb2, hge⟩ := xgb_step_trained θ db dfW dfH dfF c cid he
      subst hxc
      rw [hB] at hb2
      have : df_bike = df_bike2 := by
        injection hb2
      subst this
      omega
  · intro hge
    refine ⟨?_, xgb_runCounterLoop_snd_ok θ db dfW dfH dfF counters⟩
    apply List.mem_flatMap.mpr
    refine ⟨Xgb.counterStep θ db dfW dfH dfF cid,
      List.mem_map_of_mem _ hmem, ?_⟩
    rw [xgb_counterStep_trained θ db dfW dfH dfF cid df_bike hB (by omega)]
    simp

/-- Witness data for the C3 boundary: the first selected counter id. -/
def C3cid : String := "urn:ngsi-ld:EcoCounter:X2H22043034"

/-- Witness data for the C3 boundary: a fully populated weather payload. -/
def C3vals : WeatherVals := ⟨some 20, some 50, some 0, some 10⟩

/-- Witness data for the C3 boundary: n hourly readings. -/
def C3bike (n : Nat) : List BikeRow :=
  (List.range n).map fun i => ⟨C3cid, i * 3600, 1⟩

/-- Witness data for the C3 boundary: n matching weather rows. -/
def C3weather (n : Nat) : List WeatherRow :=
  (List.range n).map fun i => ⟨i * 3600, C3vals⟩

/-- Witness data for the C3 boundary: a store whose training table for
C3cid has exactly n rows. -/
def C3db (n : Nat) : Db :=
  ⟨C3bike n, C3weather n, [⟨0, "jour", 1970⟩], [⟨86400, C3vals⟩]⟩

/-- Witness data for the C3 boundary: an arbitrary concrete model. -/
def C3model : Xgb.ModelFn := fun _ _ => 0

set_option maxRecDepth 100000 in
/-- Witness for C3 at the exact boundary: a training table of exactly 100
rows is trained, one of 99 rows is skipped with the warning recording 99
rows. -/
theorem C3_xgb_minimum_rows_threshold_witness :
    Event.trained C3cid ∈
      (Xgb.predict_for_counters_xgb C3model (C3db 100) 0 [C3cid]).1 ∧
    Event.skippedFewRows C3cid 99 ∈
      (Xgb.predict_for_counters_xgb C3model (C3db 99) 0 [C3cid]).1 := by
  constructor
  · exact ((C3_xgb_minimum_rows_threshold C3model (C3db 100) 0 [C3cid] C3cid
      (C3weather 100) [⟨0, "jour", 1970⟩] [⟨86400, C3vals⟩] (C3bike 100)
      rfl rfl rfl rfl (by decide)).2 (by decide)).1
  · have h := ((C3_xgb_minimum_rows_threshold C3model (C3db 99) 0 [C3cid] C3cid
      (C3weather 99) [⟨0, "jour", 1970⟩] [⟨86400, C3vals⟩] (C3bike 99)
      rfl rfl rfl rfl (by decide)).1 (by decide)).1
    have hlen : (Xgb.build_training_dataset C3cid (C3bike 99) (C3weather 99)
        [⟨0, "jour", 1970⟩]).length = 99 := by decide
    rw [hlen] at h
    exact h

/-! ## Claim C8 -/

/-- Removing from the loop a counter whose step produced no predictions
does not change the collected prediction batches. -/
theorem step_none_filter {α β γ : Type} (f : α → β × Option γ) (l : List α)
    (x : α) [DecidableEq α] (hx : (f x).2 = none) :
    ((l.filter fun c => c ≠ x).map f).filterMap Prod.snd =
      (l.map f).filterMap Prod.snd := by
  induction l with
  | nil => rfl
  | cons a rest ih =>
    by_cases hax : a = x
    · subst hax
      have h1 : (a :: rest).filter (fun c => c ≠ a) =
          rest.filter (fun c => c ≠ a) := by
        rw [List.filter_cons]
        simp
      rw [h1, ih, List.map_cons, List.filterMap_cons, hx]
    · have h1 : (a :: rest).filter (fun c => c ≠ x) =
          a :: rest.filter (fun c => c ≠ x) := by
        rw [List.filter_cons]
        simp [hax]
      rw [h1, List.map_cons, List.map_cons, List.filterMap_cons,
        List.filterMap_cons, ih]

/-- When history loading fails for a counter, the Prophet loader raises
the per-counter ValueError. -/
theorem prophet_load_bike_history_error (db : Db) (cid : String)
    (hbe : db.bike_hourly.filter (fun r => r.counter_id = cid) = []) :
    Prophet.load_bike_history db cid =
      Except.error (PyError.valueError ("No bike data in bike_hourly for " ++ cid)) := by
  unfold Prophet.load_bike_history
  rw [hbe]
  rfl

/-- Prophet aborts with the shared-table error when weather_hourly is
empty. -/
theorem prophet_load_weather_history_empty (db : Db)
    (h : db.weather_hourly = []) :
    Prophet.load_weather_history db =
      Except.error (PyError.valueError "No data in weather_hourly") := by
  unfold Prophet.load_weather_history
  rw [h]
  rfl

/-- Prophet loads the sorted weather history when weather_hourly is
non-empty. -/
theorem prophet_load_weather_history_ok (db : Db)
    (h : db.weather_hourly ≠ []) :
    Prophet.load_weather_history db =
      Except.ok (sortBy (fun a b => a.timestamp_utc ≤ b.timestamp_utc)
        db.weather_hourly) := by
  unfold Prophet.load_weather_history
  rw [if_neg]
  intro hcon
  rw [List.isEmpty_iff] at hcon
  exact h ((sortBy_eq_nil_iff _ _).mp hcon)

/-- Claim C8: propagation policy.  Emptiness of a required shared table
(weather history, holidays) makes both pipelines abort with that table's
error before any counter is processed (empty event trace); a failure
confined to one counter (no bike history rows for it) leaves the result
of the run — and hence the predictions persisted for the remaining
counters — identical to the run without that counter, and the counter is
skipped with a logged warning while the run ends ok. -/
theorem C8_shared_failures_abort_per_counter_failures_skip
    (θ : Prophet.ModelFn) (θx : Xgb.ModelFn) (db : Db) (now_utc : Nat)
    (counters : List String) (cid : String) :
    (db.weather_hourly = [] →
      Prophet.predict_for_counters θ db now_utc counters =
        ([], Except.error (PyError.valueError "No data in weather_hourly")) ∧
      Xgb.predict_for_counters_xgb θx db now_utc counters =
        ([], Except.error (PyError.valueError "No data in weather_hourly"))) ∧
    (db.weather_hourly ≠ [] → db.holidays = [] →
      Prophet.predict_for_counters θ db now_utc counters =
        ([], Except.error (PyError.valueError "No data in holidays")) ∧
      Xgb.predict_for_counters_xgb θx db now_utc counters =
        ([], Except.error (PyError.valueError "No data in holidays"))) ∧
    (db.bike_hourly.filter (fun r => r.counter_id = cid) = [] →
      (Prophet.predict_for_counters θ db now_utc counters).2 =
        (Prophet.predict_for_counters θ db now_utc
          (counters.filter fun c => c ≠ cid)).2 ∧
      (Xgb.predict_for_counters_xgb θx db now_utc counters).2 =
        (Xgb.predict_for_counters_xgb θx db now_utc
          (counters.filter fun c => c ≠ cid)).2) ∧
    (∀ dfW dfH dfF, Prophet.load_weather_history db = Except.ok dfW →
      Prophet.load_holidays db = Except.ok dfH →
      Prophet.load_weather_forecast_for_tomorrow db now_utc = Except.ok dfF →
      cid ∈ counters →
      db.bike_hourly.filter (fun r => r.counter_id = cid) = [] →
      Event.skippedNoHistory cid ∈
        (Prophet.predict_for_counters θ db now_utc counters).1 ∧
      Event.skippedNoHistory cid ∈
        (Xgb.predict_for_counters_xgb θx db now_utc counters).1 ∧
      (∃ v, (Prophet.predict_for_counters θ db now_utc counters).2 = Except.ok v) ∧
      (∃ v, (Xgb.predict_for_counters_xgb θx db now_utc counters).2 = Except.ok v)) := by
  refine ⟨?_, ?_, ?_, ?_⟩
  · intro hW0
    have hWerr := prophet_load_weather_history_empty db hW0
    constructor
    · unfold Prophet.predict_for_counters
      rw [hWerr]
    · unfold Xgb.predict_for_counters_xgb Xgb.load_weather_history
      rw [hWerr]
  · intro hWne hH0
    have hWok := prophet_load_weather_history_ok db hWne
    have hHerr : Prophet.load_holidays db =
        Except.error (PyError.valueError "No data in holidays") := by
      unfold Prophet.load_holidays
      rw [hH0]
      rfl
    constructor
    · unfold Prophet.predict_for_counters
      rw [hWok, hHerr]
    · unfold Xgb.predict_for_counters_xgb Xgb.load_weather_history Xgb.load_holidays
      rw [hWok, hHerr]
  · intro hbe
    have hberr := prophet_load_bike_history_error db cid hbe
    have hberrx : Xgb.load_bike_history db cid =
        Except.error (PyError.valueError
          ("No bike data in bike_hourly for " ++ cid)) := by
      unfold Xgb.load_bike_history
      exact hberr
    constructor
    · cases hW : Prophet.load_weather_history db with
      | error e =>
        have h1 : Prophet.predict_for_counters θ db now_utc counters =
            ([], Except.error e) := by
          unfold Prophet.predict_for_counters
          rw [hW]
        have h2 : Prophet.predict_for_counters θ db now_utc
            (counters.filter fun c => c ≠ cid) = ([], Except.error e) := by
          unfold Prophet.predict_for_counters
          rw [hW]
        rw [h1, h2]
      | ok dfW =>
        cases hH : Prophet.load_holidays db with
        | error e =>
          have h1 : Prophet.predict_for_counters θ db now_utc counters =
              ([], Except.error e) := by
            unfold Prophet.predict_for_counters
            rw [hW, hH]
          have h2 : Prophet.predict_for_counters θ db now_utc
              (counters.filter fun c => c ≠ cid) = ([], Except.error e) := by
            unfold Prophet.predict_for_counters
            rw [hW, hH]
          rw [h1, h2]
        | ok dfH =>
          cases hF : Prophet.load_weather_forecast_for_tomorrow db now_utc with
          | error e =>
            have h1 : Prophet.predict_for_counters θ db now_utc counters =
                ([], Except.error e) := by
              unfold Prophet.predict_for_counters
              rw [hW, hH, hF]
            have h2 : Prophet.predict_for_counters θ db now_utc
                (counters.filter fun c => c ≠ cid) = ([], Except.error e) := by
              unfold Prophet.predict_for_counters
              rw [hW, hH, hF]
            rw [h1, h2]
          | ok dfF =>
            have h1 : Prophet.predict_for_counters θ db now_utc counters =
                Prophet.runCounterLoop θ db dfW dfH dfF counters := by
              unfold Prophet.predict_for_counters
              rw [hW, hH, hF]
            have h2 : Prophet.predict_for_counters θ db now_utc
                (counters.filter fun c => c ≠ cid) =
                Prophet.runCounterLoop θ db dfW dfH dfF
                  (counters.filter fun c => c ≠ cid) := by
              unfold Prophet.predict_for_counters
              rw [hW, hH, hF]
            have hx : (Prophet.counterStep θ db dfW dfH dfF cid).2 = none := by
              rw [prophet_counterStep_noHistory θ db dfW dfH dfF cid _ hberr]
            rw [h1, h2]
            unfold Prophet.runCounterLoop
            rw [step_none_filter (Prophet.counterStep θ db dfW dfH dfF) counters cid hx]
            rw [apply_ite Prod.snd, apply_ite Prod.snd]
    · cases hW : Xgb.load_weather_history db with
      | error e =>
        have h1 : Xgb.predict_for_counters_xgb θx db now_utc counters =
            ([], Except.error e) := by
          unfold Xgb.predict_for_counters_xgb
          rw [hW]
        have h2 : Xgb.predict_for_counters_xgb θx db now_utc
            (counters.filter fun c => c ≠ cid) = ([], Except.error e) := by
          unfold Xgb.predict_for_counters_xgb
          rw [hW]
        rw [h1, h2]
      | ok dfW =>
        cases hH : Xgb.load_holidays db with
        | error e =>
          have h1 : Xgb.predict_for_counters_xgb θx db now_utc counters =
              ([], Except.error e) := by
            unfold Xgb.predict_for_counters_xgb
            rw [hW, hH]
          have h2 : Xgb.predict_for_counters_xgb θx db now_utc
              (counters.filter fun c => c ≠ cid) = ([], Except.error e) := by
            unfold Xgb.predict_for_counters_xgb
            rw [hW, hH]
          rw [h1, h2]
        | ok dfH =>
          cases hF : Xgb.load_weather_forecast_for_tomorrow db now_utc with
          | error e =>
            have h1 : Xgb.predict_for_counters_xgb θx db now_utc counters =
                ([], Except.error e) := by
              unfold Xgb.predict_for_counters_xgb
              rw [hW, hH, hF]
            have h2 : Xgb.predict_for_counters_xgb θx db now_utc
                (counters.filter fun c => c ≠ cid) = ([], Except.error e) := by
              unfold Xgb.predict_for_counters_xgb
              rw [hW, hH, hF]
            rw [h1, h2]
          | ok dfF =>
            have h1 : Xgb.predict_for_counters_xgb θx db now_utc counters =
                Xgb.runCounterLoop θx db dfW dfH dfF counters := by
              unfold Xgb.predict_for_counters_xgb
              rw [hW, hH, hF]
            have h2 : Xgb.predict_for_counters_xgb θx db now_utc
                (counters.filter fun c => c ≠ cid) =
                Xgb.runCounterLoop θx db dfW dfH dfF
                  (counters.filter fun c => c ≠ cid) := by
              unfold Xgb.predict_for_counters_xgb
              rw [hW, hH, hF]
            have hx : (Xgb.counterStep θx db dfW dfH dfF cid).2 = none := by
              rw [xgb_counterStep_noHistory θx db dfW dfH dfF cid _ hberrx]
            rw [h1, h2]
            unfold Xgb.runCounterLoop
            rw [step_none_filter (Xgb.counterStep θx db dfW dfH dfF) counters cid hx]
            rw [apply_ite Prod.snd, apply_ite Prod.snd]
  · intro dfW dfH dfF hW hH hF hmem hbe
    have hberr := prophet_load_bike_history_error db cid hbe
    have hberrx : Xgb.load_bike_history db cid =
        Except.error (PyError.valueError
          ("No bike data in bike_hourly for " ++ cid)) := by
      unfold Xgb.load_bike_history
      exact hberr
    have hloopP : Prophet.predict_for_counters θ db now_utc counters =
        Prophet.runCounterLoop θ db dfW dfH dfF counters := by
      unfold Prophet.predict_for_counters
      rw [hW, hH, hF]
    have hloopX : Xgb.predict_for_counters_xgb θx db now_utc counters =
        Xgb.runCounterLoop θx db dfW dfH
          (sortBy (fun a b => a.timestamp_utc ≤ b.timestamp_utc) dfF) counters := by
      unfold Xgb.predict_for_counters_xgb
      unfold Xgb.load_weather_history Xgb.load_holidays
        Xgb.load_weather_forecast_for_tomorrow
      rw [hW, hH, hF]
      rfl
    rw [hloopP, hloopX, prophet_runCounterLoop_fst, xgb_runCounterLoop_fst]
    refine ⟨?_, ?_, prophet_runCounterLoop_snd_ok θ db dfW dfH dfF counters,
      xgb_runCounterLoop_snd_ok θx db dfW dfH _ counters⟩
    · apply List.mem_flatMap.mpr
      refine ⟨Prophet.counterStep θ db dfW dfH dfF cid,
        List.mem_map_of_mem _ hmem, ?_⟩
      rw [prophet_counterStep_noHistory θ db dfW dfH dfF cid _ hberr]
      simp
    · apply List.mem_flatMap.mpr
      refine ⟨Xgb.counterStep θx db dfW dfH _ cid,
        List.mem_map_of_mem _ hmem, ?_⟩
      rw [xgb_counterStep_noHistory θx db dfW dfH _ cid _ hberrx]
      simp

/-- Witness for C8 at concrete inputs: an empty weather table aborts the
whole Prophet run with the shared-table error and an empty event trace,
while a counter with no history in an otherwise healthy store is skipped
with the no-history warning. -/
theorem C8_shared_failures_abort_per_counter_failures_skip_witness :
    Prophet.predict_for_counters (fun _ _ => (0, 0, 0))
        { bike_hourly := [], weather_hourly := [],
          holidays := [⟨0, "jour", 1970⟩],
          weather_forecast_hourly := [⟨86400, ⟨some 21, some 51, some 1, some 11⟩⟩] }
        0 ["a"] =
      ([], Except.error (PyError.valueError "No data in weather_hourly")) ∧
    Event.skippedNoHistory "a" ∈
      (Prophet.predict_for_counters (fun _ _ => (0, 0, 0))
        { bike_hourly := [⟨"other", 0, 1⟩],
          weather_hourly := [⟨0, ⟨some 20, some 50, some 0, some 10⟩⟩],
          holidays := [⟨0, "jour", 1970⟩],
          weather_forecast_hourly := [⟨86400, ⟨some 21, some 51, some 1, some 11⟩⟩] }
        0 ["a"]).1 :=
  ⟨((C8_shared_failures_abort_per_counter_failures_skip (fun _ _ => (0, 0, 0))
      (fun _ _ => 0)
      { bike_hourly := [], weather_hourly := [],
        holidays := [⟨0, "jour", 1970⟩],
        weather_forecast_hourly := [⟨86400, ⟨some 21, some 51, some 1, some 11⟩⟩] }
      0 ["a"] "a").1 rfl).1,
   ((C8_shared_failures_abort_per_counter_failures_skip (fun _ _ => (0, 0, 0))
      (fun _ _ => 0)
      { bike_hourly := [⟨"other", 0, 1⟩],
        weather_hourly := [⟨0, ⟨some 20, some 50, some 0, some 10⟩⟩],
        holidays := [⟨0, "jour", 1970⟩],
        weather_forecast_hourly := [⟨86400, ⟨some 21, some 51, some 1, some 11⟩⟩] }
      0 ["a"] "a").2.2.2
      [⟨0, ⟨some 20, some 50, some 0, some 10⟩⟩] [⟨0, "jour", 1970⟩]
      [⟨86400, ⟨some 21, some 51, some 1, some 11⟩⟩]
      rfl rfl rfl (by decide) rfl).1⟩

/-- Witness for the amended C2 at a concrete input: the counter whose
readings never match the weather table is skipped and the run ends ok. -/
theorem C2_amended_empty_training_skips_witness :
    (∃ v, (Prophet.predict_for_counters (fun _ _ => (0, 0, 0))
        { bike_hourly := [⟨"urn:ngsi-ld:EcoCounter:X2H22043034", 180000, 3⟩],
          weather_hourly := [⟨0, ⟨some 20, some 50, some 0, some 10⟩⟩],
          holidays := [⟨0, "jour", 1970⟩],
          weather_forecast_hourly := [⟨86400, ⟨some 21, some 51, some 1, some 11⟩⟩] }
        0 ["urn:ngsi-ld:EcoCounter:X2H22043034"]).2 = Except.ok v) ∧
    (Event.skippedNoHistory "urn:ngsi-ld:EcoCounter:X2H22043034" ∈
      (Prophet.predict_for_counters (fun _ _ => (0, 0, 0))
        { bike_hourly := [⟨"urn:ngsi-ld:EcoCounter:X2H22043034", 180000, 3⟩],
          weather_hourly := [⟨0, ⟨some 20, some 50, some 0, some 10⟩⟩],
          holidays := [⟨0, "jour", 1970⟩],
          weather_forecast_hourly := [⟨86400, ⟨some 21, some 51, some 1, some 11⟩⟩] }
        0 ["urn:ngsi-ld:EcoCounter:X2H22043034"]).1 ∨
     Event.skippedEmptyTraining "urn:ngsi-ld:EcoCounter:X2H22043034" ∈
      (Prophet.predict_for_counters (fun _ _ => (0, 0, 0))
        { bike_hourly := [⟨"urn:ngsi-ld:EcoCounter:X2H22043034", 180000, 3⟩],
          weather_hourly := [⟨0, ⟨some 20, some 50, some 0, some 10⟩⟩],
          holidays := [⟨0, "jour", 1970⟩],
          weather_forecast_hourly := [⟨86400, ⟨some 21, some 51, some 1, some 11⟩⟩] }
        0 ["urn:ngsi-ld:EcoCounter:X2H22043034"]).1) ∧
    Event.trained "urn:ngsi-ld:EcoCounter:X2H22043034" ∉
      (Prophet.predict_for_counters (fun _ _ => (0, 0, 0))
        { bike_hourly := [⟨"urn:ngsi-ld:EcoCounter:X2H22043034", 180000, 3⟩],
          weather_hourly := [⟨0, ⟨some 20, some 50, some 0, some 10⟩⟩],
          holidays := [⟨0, "jour", 1970⟩],
          weather_forecast_hourly := [⟨86400, ⟨some 21, some 51, some 1, some 11⟩⟩] }
        0 ["urn:ngsi-ld:EcoCounter:X2H22043034"]).1 := by
  refine C2_amended_empty_training_skips (fun _ _ => (0, 0, 0))
    { bike_hourly := [⟨"urn:ngsi-ld:EcoCounter:X2H22043034", 180000, 3⟩],
      weather_hourly := [⟨0, ⟨some 20, some 50, some 0, some 10⟩⟩],
      holidays := [⟨0, "jour", 1970⟩],
      weather_forecast_hourly := [⟨86400, ⟨some 21, some 51, some 1, some 11⟩⟩] }
    0 ["urn:ngsi-ld:EcoCounter:X2H22043034"] "urn:ngsi-ld:EcoCounter:X2H22043034"
    [⟨0, ⟨some 20, some 50, some 0, some 10⟩⟩] [⟨0, "jour", 1970⟩]
    [⟨86400, ⟨some 21, some 51, some 1, some 11⟩⟩]
    rfl rfl rfl (by decide) ?_
  intro df_bike h
  have hcomp : Prophet.load_bike_history
      { bike_hourly := [⟨"urn:ngsi-ld:EcoCounter:X2H22043034", 180000, 3⟩],
        weather_hourly := [⟨0, ⟨some 20, some 50, some 0, some 10⟩⟩],
        holidays := [⟨0, "jour", 1970⟩],
        weather_forecast_hourly := [⟨86400, ⟨some 21, some 51, some 1, some 11⟩⟩] }
      "urn:ngsi-ld:EcoCounter:X2H22043034" =
      Except.ok [⟨"urn:ngsi-ld:EcoCounter:X2H22043034", 180000, 3⟩] := rfl
  rw [hcomp] at h
  injection h with h1
  rw [← h1]
  decide

/-! ## Claim C9 -/

/-- Digit characters are digits. -/
theorem digitChar_isDigit (d : Nat) (hd : d < 10) :
    (digitChar d).isDigit = true := by
  unfold digitChar
  interval_cases d <;> decide

/-- Every character the fuelled renderer emits is a digit. -/
theorem natDigitsGo_isDigit (fuel : Nat) :
    ∀ m : Nat, ∀ c ∈ natDigitsGo fuel m, c.isDigit = true := by
  induction fuel with
  | zero =>
    intro m c hc
    exact absurd hc (List.not_mem_nil c)
  | succ fuel ih =>
    intro m c hc
    rw [natDigitsGo] at hc
    by_cases h : m < 10
    · rw [if_pos h] at hc
      simp only [List.mem_singleton] at hc
      subst hc
      exact digitChar_isDigit m h
    · rw [if_neg h] at hc
      rcases List.mem_append.mp hc with h1 | h1
      · exact ih (m / 10) c h1
      · simp only [List.mem_singleton] at h1
        subst h1
        exact digitChar_isDigit _ (Nat.mod_lt _ (by omega))

/-- Every character of a rendered natural number is a digit. -/
theorem natDigits_isDigit (n : Nat) : ∀ c ∈ natDigits n, c.isDigit = true :=
  natDigitsGo_isDigit (n + 1) n

/-- Characters drawn from an all-zeros prefix are digits. -/
theorem zeros_data_isDigit (c : Char) (k : List Char)
    (hk : ∀ x ∈ k, x = '0') (h : c ∈ k) : c.isDigit = true := by
  rw [hk c h]
  decide

/-- Every character of a two-digit zero-padded field is a digit. -/
theorem pad2_isDigit (n : Nat) : ∀ c ∈ (pad2 n).data, c.isDigit = true := by
  intro c hc
  unfold pad2 at hc
  by_cases h : n < 10
  · rw [if_pos h, String.data_append] at hc
    rcases List.mem_append.mp hc with h1 | h1
    · exact zeros_data_isDigit c _ (by decide) h1
    · exact natDigits_isDigit n c h1
  · rw [if_neg h] at hc
    exact natDigits_isDigit n c hc

/-- Every character of a four-digit zero-padded field is a digit. -/
theorem pad4_isDigit (n : Nat) : ∀ c ∈ (pad4 n).data, c.isDigit = true := by
  intro c hc
  unfold pad4 at hc
  by_cases h1 : n < 10
  · rw [if_pos h1, String.data_append] at hc
    rcases List.mem_append.mp hc with h | h
    · exact zeros_data_isDigit c _ (by decide) h
    · exact natDigits_isDigit n c h
  · rw [if_neg h1] at hc
    by_cases h2 : n < 100
    · rw [if_pos h2, String.data_append] at hc
      rcases List.mem_append.mp hc with h | h
      · exact zeros_data_isDigit c _ (by decide) h
      · exact natDigits_isDigit n c h
    · rw [if_neg h2] at hc
      by_cases h3 : n < 1000
      · rw [if_pos h3, String.data_append] at hc
        rcases List.mem_append.mp hc with h | h
        · exact zeros_data_isDigit c _ (by decide) h
        · exact natDigits_isDigit n c h
      · rw [if_neg h3] at hc
        exact natDigits_isDigit n c hc

/-- The projection of the `upsert_df` network operations. -/
theorem upsert_df_snd {ρ : Type} (t : String) (df : List ρ) :
    (DbSupabase.upsert_df t df).2 =
      if df.isEmpty then []
      else [DbSupabase.NetOp.createClient, DbSupabase.NetOp.upsertWrite t df] := by
  unfold DbSupabase.upsert_df
  split <;> rfl

/-- Membership in a one-character list pins the character. -/
theorem mem_single_char {c d : Char} (h : c ∈ [d]) : c = d := by
  simpa using h

/-- Characters of an appended string satisfy a predicate when the
characters of both halves do. -/
theorem string_append_chars {s t : String} {P : Char → Prop}
    (hs : ∀ c ∈ s.data, P c) (ht : ∀ c ∈ t.data, P c) :
    ∀ c ∈ (s ++ t).data, P c := by
  intro c hc
  rw [String.data_append] at hc
  rcases List.mem_append.mp hc with h | h
  · exact hs c h
  · exact ht c h

/-- Every character of a serialized timestamp is a digit or one of the
ISO-8601 separators; in particular there is no offset suffix (no '+', no
'Z', no space). -/
theorem strftime_chars (t : Nat) :
    ∀ c ∈ (strftime_iso_no_tz t).data,
      c.isDigit = true ∨ c = '-' ∨ c = ':' ∨ c = 'T' := by
  have hdash : ∀ c ∈ ("-" : String).data,
      c.isDigit = true ∨ c = '-' ∨ c = ':' ∨ c = 'T' :=
    fun c h => Or.inr (Or.inl (mem_single_char h))
  have hcolon : ∀ c ∈ (":" : String).data,
      c.isDigit = true ∨ c = '-' ∨ c = ':' ∨ c = 'T' :=
    fun c h => Or.inr (Or.inr (Or.inl (mem_single_char h)))
  have hT : ∀ c ∈ ("T" : String).data,
      c.isDigit = true ∨ c = '-' ∨ c = ':' ∨ c = 'T' :=
    fun c h => Or.inr (Or.inr (Or.inr (mem_single_char h)))
  have hp4 : ∀ n : Nat, ∀ c ∈ (pad4 n).data,
      c.isDigit = true ∨ c = '-' ∨ c = ':' ∨ c = 'T' :=
    fun n c h => Or.inl (pad4_isDigit n c h)
  have hp2 : ∀ n : Nat, ∀ c ∈ (pad2 n).data,
      c.isDigit = true ∨ c = '-' ∨ c = ':' ∨ c = 'T' :=
    fun n c h => Or.inl (pad2_isDigit n c h)
  unfold strftime_iso_no_tz
  exact string_append_chars (string_append_chars (string_append_chars
    (string_append_chars (string_append_chars (string_append_chars
      (string_append_chars (string_append_chars (string_append_chars
        (string_append_chars (hp4 _) hdash) (hp2 _)) hdash) (hp2 _)) hT)
          (hp2 _)) hcolon) (hp2 _)) hcolon) (hp2 _)

/-- Every row the Prophet pipeline writes to the store carries a
timestamp produced by the serializer. -/
theorem prophet_upsert_rows_serialized (θ : Prophet.ModelFn) (db : Db)
    (now_utc : Nat) (counters : List String) (o : DbSupabase.UpsertOutcome)
    (ops : List (DbSupabase.NetOp Prophet.PredOutRow)) (table : String)
    (recs : List Prophet.PredOutRow)
    (h : (Prophet.predict_for_counters θ db now_utc counters).2 =
      Except.ok (some (o, ops)))
    (hm : DbSupabase.NetOp.upsertWrite table recs ∈ ops) :
    ∀ r ∈ recs, ∃ ts, r.timestamp_utc = strftime_iso_no_tz ts := by
  cases hW : Prophet.load_weather_history db with
  | error e =>
    have hrun : Prophet.predict_for_counters θ db now_utc counters =
        ([], Except.error e) := by
      unfold Prophet.predict_for_counters
      rw [hW]
    rw [hrun] at h
    exact absurd h (by simp)
  | ok dfW =>
    cases hH : Prophet.load_holidays db with
    | error e =>
      have hrun : Prophet.predict_for_counters θ db now_utc counters =
          ([], Except.error e) := by
        unfold Prophet.predict_for_counters
        rw [hW, hH]
      rw [hrun] at h
      exact absurd h (by simp)
    | ok dfH =>
      cases hF : Prophet.load_weather_forecast_for_tomorrow db now_utc with
      | error e =>
        have hrun : Prophet.predict_for_counters θ db now_utc counters =
            ([], Except.error e) := by
          unfold Prophet.predict_for_counters
          rw [hW, hH, hF]
        rw [hrun] at h
        exact absurd h (by simp)
      | ok dfF =>
        have hrun : Prophet.predict_for_counters θ db now_utc counters =
            Prophet.runCounterLoop θ db dfW dfH dfF counters := by
          unfold Prophet.predict_for_counters
          rw [hW, hH, hF]
        rw [hrun] at h
        unfold Prophet.runCounterLoop at h
        rw [apply_ite Prod.snd] at h
        by_cases hp : (((counters.map
            (Prophet.counterStep θ db dfW dfH dfF)).filterMap Prod.snd).isEmpty)
        · rw [if_pos hp] at h
          exact absurd h (by simp)
        · rw [if_neg hp] at h
          simp only [Except.ok.injEq, Option.some.injEq] at h
          have hops : ops = (DbSupabase.upsert_df "bike_predictions_hourly_prophet"
              ((((counters.map (Prophet.counterStep θ db dfW dfH dfF)).filterMap
                  Prod.snd).flatten).map fun p =>
                ({ counter_id := p.counter_id,
                   timestamp_utc := strftime_iso_no_tz p.timestamp_utc,
                   yhat := p.yhat, yhat_lower := p.yhat_lower,
                   yhat_upper := p.yhat_upper } : Prophet.PredOutRow))).2 :=
            (congrArg Prod.snd h).symm
          rw [hops, upsert_df_snd] at hm
          by_cases hser : ((((counters.map (Prophet.counterStep θ db dfW dfH dfF)).filterMap
              Prod.snd).flatten).map fun p =>
                ({ counter_id := p.counter_id,
                   timestamp_utc := strftime_iso_no_tz p.timestamp_utc,
                   yhat := p.yhat, yhat_lower := p.yhat_lower,
                   yhat_upper := p.yhat_upper } : Prophet.PredOutRow)).isEmpty
          · rw [if_pos hser] at hm
            exact absurd hm (by simp)
          · rw [if_neg hser] at hm
            simp only [List.mem_cons, List.mem_singleton, List.not_mem_nil,
              or_false] at hm
            rcases hm with hm | hm
            · exact absurd hm (by simp)
            · have hrecs : recs = (((counters.map
                  (Prophet.counterStep θ db dfW dfH dfF)).filterMap
                    Prod.snd).flatten).map fun p =>
                  ({ counter_id := p.counter_id,
                     timestamp_utc := strftime_iso_no_tz p.timestamp_utc,
                     yhat := p.yhat, yhat_lower := p.yhat_lower,
                     yhat_upper := p.yhat_upper } : Prophet.PredOutRow) := by
                injection hm
              intro r hr
              rw [hrecs] at hr
              obtain ⟨p, _, hpr⟩ := List.mem_map.mp hr
              exact ⟨p.timestamp_utc, by rw [← hpr]⟩

/-- Every row the XGBoost pipeline writes to the store carries a
timestamp produced by the serializer. -/
theorem xgb_upsert_rows_serialized (θx : Xgb.ModelFn) (db : Db)
    (now_utc : Nat) (counters : List String) (o : DbSupabase.UpsertOutcome)
    (ops : List (DbSupabase.NetOp Xgb.PredOutRow)) (table : String)
    (recs : List Xgb.PredOutRow)
    (h : (Xgb.predict_for_counters_xgb θx db now_utc counters).2 =
      Except.ok (some (o, ops)))
    (hm : DbSupabase.NetOp.upsertWrite table recs ∈ ops) :
    ∀ r ∈ recs, ∃ ts, r.timestamp_utc = strftime_iso_no_tz ts := by
  cases hW : Xgb.load_weather_history db with
  | error e =>
    have hrun : Xgb.predict_for_counters_xgb θx db now_utc counters =
        ([], Except.error e) := by
      unfold Xgb.predict_for_counters_xgb
      rw [hW]
    rw [hrun] at h
    exact absurd h (by simp)
  | ok dfW =>
    cases hH : Xgb.load_holidays db with
    | error e =>
      have hrun : Xgb.predict_for_counters_xgb θx db now_utc counters =
          ([], Except.error e) := by
        unfold Xgb.predict_for_counters_xgb
        rw [hW, hH]
      rw [hrun] at h
      exact absurd h (by simp)
    | ok dfH =>
      cases hF : Xgb.load_weather_forecast_for_tomorrow db now_utc with
      | error e =>
        have hrun : Xgb.predict_for_counters_xgb θx db now_utc counters =
            ([], Except.error e) := by
          unfold Xgb.predict_for_counters_xgb
          rw [hW, hH, hF]
        rw [hrun] at h
        exact absurd h (by simp)
      | ok dfF =>
        have hrun : Xgb.predict_for_counters_xgb θx db now_utc counters =
            Xgb.runCounterLoop θx db dfW dfH dfF counters := by
          unfold Xgb.predict_for_counters_xgb
          rw [hW, hH, hF]
        rw [hrun] at h
        unfold Xgb.runCounterLoop at h
        rw [apply_ite Prod.snd] at h
        by_cases hp : (((counters.map
            (Xgb.counterStep θx db dfW dfH dfF)).filterMap Prod.snd).isEmpty)
        · rw [if_pos hp] at h
          exact absurd h (by simp)
        · rw [if_neg hp] at h
          simp only [Except.ok.injEq, Option.some.injEq] at h
          have hops : ops = (DbSupabase.upsert_df "bike_predictions_hourly_xgboost"
              ((((counters.map (Xgb.counterStep θx db dfW dfH dfF)).filterMap
                  Prod.snd).flatten).map fun p =>
                ({ counter_id := p.counter_id,
                   timestamp_utc := strftime_iso_no_tz p.timestamp_utc,
                   yhat := p.yhat } : Xgb.PredOutRow))).2 :=
            (congrArg Prod.snd h).symm
          rw [hops, upsert_df_snd] at hm
          by_cases hser : ((((counters.map (Xgb.counterStep θx db dfW dfH dfF)).filterMap
              Prod.snd).flatten).map fun p =>
                ({ counter_id := p.counter_id,
                   timestamp_utc := strftime_iso_no_tz p.timestamp_utc,
                   yhat := p.yhat } : Xgb.PredOutRow)).isEmpty
          · rw [if_pos hser] at hm
            exact absurd hm (by simp)
          · rw [if_neg hser] at hm
            simp only [List.mem_cons, List.mem_singleton, List.not_mem_nil,
              or_false] at hm
            rcases hm with hm | hm
            · exact absurd hm (by simp)
            · have hrecs : recs = (((counters.map
                  (Xgb.counterStep θx db dfW dfH dfF)).filterMap
                    Prod.snd).flatten).map fun p =>
                  ({ counter_id := p.counter_id,
                     timestamp_utc := strftime_iso_no_tz p.timestamp_utc,
                     yhat := p.yhat } : Xgb.PredOutRow) := by
                injection hm
              intro r hr
              rw [hrecs] at hr
              obtain ⟨p, _, hpr⟩ := List.mem_map.mp hr
              exact ⟨p.timestamp_utc, by rw [← hpr]⟩

/-- Every forecast row prepared for the store carries a timestamp
produced by the serializer. -/
theorem prepare_rows_serialized (df : List UpdateWeatherForecast.SkeletonRow) :
    ∀ r ∈ UpdateWeatherForecast.prepare_for_supabase df,
      ∃ ts, r.timestamp_utc = strftime_iso_no_tz ts := by
  intro r hr
  unfold UpdateWeatherForecast.prepare_for_supabase at hr
  have hr2 := mem_dedupByKey _ _ _ hr
  obtain ⟨row, _, hmap⟩ := List.mem_map.mp hr2
  exact ⟨row.time_utc, by rw [← hmap]⟩

/-- Claim C9: every timestamp persisted to the store (prediction rows of
both variants and prepared forecast rows) is serialized by the one
strftime model, whose output has the %Y-%m-%dT%H:%M:%S shape — its hour
field is exactly the UTC hour of the source timestamp (no local-offset
shift) — and consists only of digits and the separators '-', ':', 'T', so
it carries no explicit offset suffix. -/
theorem C9_persisted_timestamps_utc_iso_no_offset :
    (∀ t : Nat, strftime_iso_no_tz t =
      pad4 (civilFromDays (dateOf t)).1 ++ "-" ++
      pad2 (civilFromDays (dateOf t)).2.1 ++ "-" ++
      pad2 (civilFromDays (dateOf t)).2.2 ++ "T" ++
      pad2 (hourOfDay t) ++ ":" ++ pad2 (minuteOf t) ++ ":" ++
      pad2 (secondOf t)) ∧
    (∀ t : Nat, ∀ c ∈ (strftime_iso_no_tz t).data,
      c.isDigit = true ∨ c = '-' ∨ c = ':' ∨ c = 'T') ∧
    (∀ (θ : Prophet.ModelFn) (db : Db) (now_utc : Nat)
      (counters : List String) (o : DbSupabase.UpsertOutcome)
      (ops : List (DbSupabase.NetOp Prophet.PredOutRow)) (table : String)
      (recs : List Prophet.PredOutRow),
      (Prophet.predict_for_counters θ db now_utc counters).2 =
        Except.ok (some (o, ops)) →
      DbSupabase.NetOp.upsertWrite table recs ∈ ops →
      ∀ r ∈ recs, ∃ ts, r.timestamp_utc = strftime_iso_no_tz ts) ∧
    (∀ (θx : Xgb.ModelFn) (db : Db) (now_utc : Nat)
      (counters : List String) (o : DbSupabase.UpsertOutcome)
      (ops : List (DbSupabase.NetOp Xgb.PredOutRow)) (table : String)
      (recs : List Xgb.PredOutRow),
      (Xgb.predict_for_counters_xgb θx db now_utc counters).2 =
        Except.ok (some (o, ops)) →
      DbSupabase.NetOp.upsertWrite table recs ∈ ops →
      ∀ r ∈ recs, ∃ ts, r.timestamp_utc = strftime_iso_no_tz ts) ∧
    (∀ df : List UpdateWeatherForecast.SkeletonRow,
      ∀ r ∈ UpdateWeatherForecast.prepare_for_supabase df,
      ∃ ts, r.timestamp_utc = strftime_iso_no_tz ts) :=
  ⟨fun _ => rfl, strftime_chars,
   fun θ db now counters o ops table recs h hm =>
     prophet_upsert_rows_serialized θ db now counters o ops table recs h hm,
   fun θx db now counters o ops table recs h hm =>
     xgb_upsert_rows_serialized θx db now counters o ops table recs h hm,
   prepare_rows_serialized⟩

/-- Witness for C9 at concrete inputs: the prepared forecast row for the
epoch hour carries the serializer's output, and its 'T' separator falls in
the allowed ISO character set. -/
theorem C9_persisted_timestamps_utc_iso_no_offset_witness :
    (∃ ts, ("1970-01-01T00:00:00" : String) = strftime_iso_no_tz ts) ∧
    ('T'.isDigit = true ∨ 'T' = '-' ∨ 'T' = ':' ∨ 'T' = 'T') :=
  ⟨C9_persisted_timestamps_utc_iso_no_offset.2.2.2.2
      [⟨0, none⟩] ⟨"1970-01-01T00:00:00", none⟩ (by decide),
   C9_persisted_timestamps_utc_iso_no_offset.2.1 0 'T' (by decide)⟩
